import Mathlib

/-!
Verification of the ghostoxide stealth-and-humanization engine.

Shallow embedding of `src/ghost.rs` and `src/profiles.rs`:
* Rust `i32` values are modelled as `ℤ`, with explicit wrapping or saturation
  where the source can overflow (`absWrap`, `f64AsI32`).
* Rust `f64` arithmetic is modelled over `ℚ`.  Every float expression of the
  source that a theorem below depends on is either exact in binary floating
  point (multiplication by 0.5 or 1.0, comparison of i/n against 0.3/0.7 for
  the step counts that occur) or is evaluated far away from a rounding
  boundary, so the rational model agrees with the f64 computation there.
* Protocol calls are reified as a trace of `CdpCommand` values; the remote
  endpoint's answers are passed in as an explicit environment.
* Random draws (`rand::Rng::gen_range`) are passed in as explicit parameters,
  universally quantified over the range the source draws from.
-/

set_option maxRecDepth 1000000

namespace Ghostoxide

/-! ### Basic utilities -/

/-- Fuel-indexed decimal digit computation (structural recursion on the fuel,
so kernel evaluation works; `natDigits` supplies enough fuel). -/
def natDigitsAux : ℕ → ℕ → List Char
  | 0, _ => []
  | fuel + 1, n =>
    if n < 10 then [Char.ofNat (48 + n)]
    else natDigitsAux fuel (n / 10) ++ [Char.ofNat (48 + n % 10)]

/-- Decimal digits of a natural number, most significant first.  Mirrors the
Rust `Display` implementation for unsigned integers used by `format!`. -/
def natDigits (n : ℕ) : List Char := natDigitsAux (n + 1) n

/-- The digit computation does not depend on the fuel once it is sufficient. -/
theorem natDigitsAux_congr :
    ∀ f1 f2 n, n < f1 → n < f2 → natDigitsAux f1 n = natDigitsAux f2 n := by
  intro f1
  induction f1 with
  | zero => intro f2 n h1 _; omega
  | succ f ih =>
    intro f2 n h1 h2
    cases f2 with
    | zero => omega
    | succ f2' =>
      simp only [natDigitsAux]
      split_ifs with h
      · rfl
      · rw [ih f2' (n / 10) (by omega) (by omega)]

/-- The defining recursion of `natDigits`. -/
theorem natDigits_eq (n : ℕ) :
    natDigits n = if n < 10 then [Char.ofNat (48 + n)]
      else natDigits (n / 10) ++ [Char.ofNat (48 + n % 10)] := by
  unfold natDigits
  rw [show natDigitsAux (n + 1) n = if n < 10 then [Char.ofNat (48 + n)]
      else natDigitsAux n (n / 10) ++ [Char.ofNat (48 + n % 10)] from rfl]
  split_ifs with h
  · rfl
  · rw [natDigitsAux_congr n (n / 10 + 1) (n / 10) (by omega) (by omega)]

/-- Decimal digits of an integer, mirroring Rust `Display` for `i32`/`u32`. -/
def intDigits (k : ℤ) : List Char :=
  if k < 0 then '-' :: natDigits k.natAbs else natDigits k.toNat

/-- Read a digit string back as a natural number. -/
def digitsToNat (l : List Char) : ℕ :=
  l.foldl (fun a c => a * 10 + (c.toNat - 48)) 0

/-- Boolean test that `p` is an initial segment of `l`. -/
def lpre : List Char → List Char → Bool
  | [], _ => true
  | _ :: _, [] => false
  | a :: as, b :: bs => a == b && lpre as bs

/-- Boolean test that `pat` starts at no position of `l` (occurrences running
past the end of `l` included). -/
def noOccurB (pat : List Char) : List Char → Bool
  | [] => true
  | c :: cs => !(lpre pat (c :: cs)) && noOccurB pat cs

/-- Drop everything up to and including the first occurrence of `pat`;
`none` when `pat` does not occur. -/
def dropThrough (pat : List Char) : List Char → Option (List Char)
  | [] => none
  | c :: cs =>
    if lpre pat (c :: cs) then some (List.drop pat.length (c :: cs))
    else dropThrough pat cs

/-- `lpre` through `take`. -/
theorem lpre_iff (p : List Char) : ∀ l, lpre p l = true ↔ l.take p.length = p := by
  induction p with
  | nil => intro l; simp [lpre]
  | cons a as ih =>
    intro l
    cases l with
    | nil => simp [lpre]
    | cons b bs =>
      simp only [lpre, Bool.and_eq_true, beq_iff_eq, List.length_cons, List.take_succ_cons,
        List.cons.injEq, ih bs]
      exact and_congr_left (fun _ => eq_comm)

/-- A list is an initial segment of itself followed by anything. -/
theorem lpre_self_append (p r : List Char) : lpre p (p ++ r) = true := by
  induction p with
  | nil => simp [lpre]
  | cons a as ih => simp [lpre, ih]

/-- `lpre` only looks at the first `p.length` characters. -/
theorem lpre_congr (p l m : List Char) (h : l.take p.length = m.take p.length) :
    lpre p l = lpre p m := by
  have h1 := lpre_iff p l
  have h2 := lpre_iff p m
  rw [h, ← h2] at h1
  cases hb : lpre p l
  · cases hb2 : lpre p m
    · rfl
    · exact absurd (h1.mpr hb2) (by simp [hb])
  · rw [h1.mp hb]

/-- Soundness of the occurrence scan. -/
theorem noOccurB_correct (pat : List Char) :
    ∀ l, noOccurB pat l = true → ∀ i, i < l.length → lpre pat (l.drop i) = false := by
  intro l
  induction l with
  | nil => intro _ i hi; simp at hi
  | cons c cs ih =>
    intro h i hi
    simp only [noOccurB, Bool.and_eq_true, Bool.not_eq_true'] at h
    cases i with
    | zero => simpa using h.1
    | succ j =>
      have := ih h.2 j (by simpa using hi)
      simpa using this

/-- Skipping a pattern-free region of the scan. -/
theorem dropThrough_append (pat : List Char) :
    ∀ (A B : List Char), (∀ i, i < A.length → lpre pat (A.drop i ++ B) = false) →
      dropThrough pat (A ++ B) = dropThrough pat B := by
  intro A
  induction A with
  | nil => intro B _; simp
  | cons c cs ih =>
    intro B h
    have h0 := h 0 (by simp)
    rw [List.drop_zero, List.cons_append] at h0
    rw [List.cons_append]
    simp only [dropThrough, h0, Bool.false_eq_true, if_false]
    refine ih B (fun i hi => ?_)
    have := h (i + 1) (by simpa using Nat.succ_lt_succ hi)
    simpa using this

/-- The scan finds a pattern sitting at the front. -/
theorem dropThrough_hit (pat rest : List Char) (h : pat ≠ []) :
    dropThrough pat (pat ++ rest) = some rest := by
  cases pat with
  | nil => exact absurd rfl h
  | cons a as =>
    have hp : lpre (a :: as) (a :: (as ++ rest)) = true := by
      have := lpre_self_append (a :: as) rest
      rwa [List.cons_append] at this
    rw [List.cons_append]
    simp only [dropThrough, hp, if_true]
    rw [show a :: (as ++ rest) = (a :: as) ++ rest from rfl, List.drop_left]

/-- If the scan over `A` extended by the longest proper front of `pat` finds
nothing, then `pat` starts at no position inside `A`, whatever follows `A` —
provided what follows begins with `pat` itself. -/
theorem noStart_concrete (pat A R : List Char)
    (h : noOccurB pat (A ++ pat.take (pat.length - 1)) = true) :
    ∀ i, i < A.length → lpre pat (A.drop i ++ (pat ++ R)) = false := by
  intro i hi
  have hn := noOccurB_correct pat _ h i (by rw [List.length_append]; omega)
  rw [List.drop_append_eq_append_drop, show i - A.length = 0 from by omega,
    List.drop_zero] at hn
  rw [← hn]
  apply lpre_congr
  have hlen : (A.drop i).length = A.length - i := List.length_drop _ _
  simp only [List.take_append_eq_append_take, List.take_take]
  congr 1
  rw [show pat.length - (A.drop i).length - pat.length = 0 from by omega, List.take_zero,
    List.append_nil,
    show min (pat.length - (A.drop i).length) (pat.length - 1)
        = pat.length - (A.drop i).length from by
      rw [hlen]; exact Nat.min_eq_left (by omega)]

/-- `takeWhile` stops exactly at the end of an all-digit block. -/
theorem takeWhile_digits_append (D : List Char) (q : Char) (Q : List Char)
    (hD : ∀ c ∈ D, c.isDigit = true) (hq : q.isDigit = false) :
    (D ++ q :: Q).takeWhile Char.isDigit = D := by
  induction D with
  | nil => simp [List.takeWhile_cons, hq]
  | cons d ds ih =>
    have hd := hD d (by simp)
    simp [List.takeWhile_cons, hd, ih (fun c hc => hD c (by simp [hc]))]

/-- `natDigits` never yields the empty string. -/
theorem natDigits_ne_nil (n : ℕ) : natDigits n ≠ [] := by
  rw [natDigits_eq]
  split_ifs <;> simp

/-- Every character of `natDigits` is a decimal digit. -/
theorem natDigits_digits (n : ℕ) : ∀ c ∈ natDigits n, c.isDigit = true := by
  induction n using Nat.strong_induction_on with
  | _ n ih =>
    rw [natDigits_eq]
    split_ifs with h
    · intro c hc
      simp only [List.mem_singleton] at hc
      subst hc
      interval_cases n <;> decide
    · intro c hc
      simp only [List.mem_append, List.mem_singleton] at hc
      rcases hc with hc | hc
      · exact ih (n / 10) (Nat.div_lt_self (by omega) (by omega)) c hc
      · subst hc
        have h10 : n % 10 < 10 := by omega
        revert h10
        generalize n % 10 = m
        intro h10
        interval_cases m <;> decide

/-- Reading the decimal digits back yields the number. -/
theorem digitsToNat_natDigits (n : ℕ) : digitsToNat (natDigits n) = n := by
  induction n using Nat.strong_induction_on with
  | _ n ih =>
    rw [natDigits_eq]
    split_ifs with h
    · interval_cases n <;> decide
    · unfold digitsToNat
      rw [List.foldl_append]
      simp only [List.foldl_cons, List.foldl_nil]
      have ihv := ih (n / 10) (Nat.div_lt_self (by omega) (by omega))
      unfold digitsToNat at ihv
      rw [ihv]
      have hc : (Char.ofNat (48 + n % 10)).toNat = 48 + n % 10 := by
        have h10 : n % 10 < 10 := by omega
        revert h10
        generalize n % 10 = m
        intro h10
        interval_cases m <;> decide
      rw [hc]
      omega

/-- Rust's `i32::max` (executable form, so kernel evaluation works). -/
def maxI (a b : ℤ) : ℤ := if a < b then b else a

/-- Rust's `i32::min`. -/
def minI (a b : ℤ) : ℤ := if b < a then b else a

/-- Truncation of a rational toward zero, the rounding used by Rust's
`as i32` cast from `f64` (before saturation). -/
def truncRat (q : ℚ) : ℤ := if 0 ≤ q then ⌊q⌋ else ⌈q⌉

/-- Rust's saturating `f64 as i32` cast. -/
def f64AsI32 (q : ℚ) : ℤ := maxI (-(2 ^ 31)) (minI (2 ^ 31 - 1) (truncRat q))

/-- Rust's `i32::clamp(lo, hi)`. -/
def clampI (x lo hi : ℤ) : ℤ := minI (maxI x lo) hi

/-- Rust's `i32::abs`, which wraps on `i32::MIN` (release-mode semantics). -/
def absWrap (x : ℤ) : ℤ := if x = -(2 ^ 31) then -(2 ^ 31) else if x < 0 then -x else x

/-! ### Protocol command traces (`src/ghost.rs`) -/

/-- The Chrome DevTools Protocol requests that `GhostPage` can issue.  The
`runtimeEnable` constructor stands for the `Runtime.enable` call that the
stealth executor is required never to issue. -/
inductive CdpCommand where
  | createIsolatedWorld (frameId worldName : String) (grantUniversalAccess : Bool)
  | evaluate (expression : String) (contextId : ℤ) (awaitPromise returnByValue : Bool)
  | runtimeEnable
  | keyDown (text : Option Char)
  | keyUp
  | mouseWheel (x y : ℚ) (deltaY : ℤ)
deriving DecidableEq

/-- The answers the remote endpoint gives to the requests `evaluate_stealth`
makes, in the order the source consults them. -/
structure StealthEnv where
  mainframe : Except String (Option String)
  worldResult : Except String ℤ
  evalResult : Except String (Option String)

/-- Model of `GhostPage::evaluate_stealth` (src/ghost.rs lines 52-82).  Returns
the `Result` value together with the list of protocol commands issued, in
order.  `self.inner.mainframe()` is a lookup on the page handle, not a
protocol command, so it does not appear in the trace. -/
def evaluate_stealth (env : StealthEnv) (script : String) :
    Except String (Option String) × List CdpCommand :=
  match env.mainframe with
  | .error e => (.error e, [])
  | .ok none => (.error ("No main frame available"), [])
  | .ok (some fid) =>
    let cmd1 := CdpCommand.createIsolatedWorld fid ("ghost") true
    match env.worldResult with
    | .error e => (.error e, [cmd1])
    | .ok ctx =>
      let cmd2 := CdpCommand.evaluate script ctx true true
      match env.evalResult with
      | .error e => (.error e, [cmd1, cmd2])
      | .ok v => (.ok v, [cmd1, cmd2])

/-! ### Mouse state and Bezier paths (`src/ghost.rs`) -/

/-- A 2-D point, `ghost.rs`'s `Point { x: f64, y: f64 }` over `ℚ`. -/
@[ext]
structure GPoint where
  x : ℚ
  y : ℚ
deriving DecidableEq

/-- Model of `BezierPath::generate` (src/ghost.rs lines 372-418).  The random
draws are explicit parameters: `o1x o1y o2x o2y` are the four
`gen_range(-offset_range..offset_range)` lateral offsets, `overshoot` is the
`gen_bool(0.20)` draw, and `dist` stands for the computed straight-line
distance `sqrt((ex-sx)^2+(ey-sy)^2)` (kept abstract because square roots are
irrational; no theorem below depends on its value). -/
def BezierPath.generate (s e : GPoint) (steps : ℕ)
    (o1x o1y o2x o2y : ℚ) (dist : ℚ) (overshoot : Bool) : List GPoint :=
  let p1 : GPoint := ⟨s.x + (e.x - s.x) * (1/4) + o1x, s.y + (e.y - s.y) * (1/4) + o1y⟩
  let p2x0 := s.x + (e.x - s.x) * (3/4) + o2x
  let p2y0 := s.y + (e.y - s.y) * (3/4) + o2y
  let amt := dist * (1/20)
  let p2 : GPoint :=
    if overshoot then
      ⟨p2x0 + (if s.x < e.x then amt else -amt), p2y0 + (if s.y < e.y then amt else -amt)⟩
    else ⟨p2x0, p2y0⟩
  (List.range (steps + 1)).map fun (i : ℕ) =>
    let t : ℚ := (i : ℚ) / (steps : ℚ)
    ⟨(1 - t) ^ 3 * s.x + 3 * (1 - t) ^ 2 * t * p1.x + 3 * (1 - t) * t ^ 2 * p2.x + t ^ 3 * e.x,
     (1 - t) ^ 3 * s.y + 3 * (1 - t) ^ 2 * t * p1.y + 3 * (1 - t) * t ^ 2 * p2.y + t ^ 3 * e.y⟩

/-- The dispatch loop of `GhostPage::move_mouse_human` (src/ghost.rs lines
104-109).  `disp i` tells whether the `move_mouse` call for the i-th path
point succeeds.  Returns the `Result` and the final value of the shared
`mouse_pos` state, which the source updates after each successful dispatch. -/
def moveLoop (disp : ℕ → Bool) : List GPoint → ℕ → GPoint → Except Unit Unit × GPoint
  | [], _, pos => (.ok (), pos)
  | p :: rest, i, pos =>
    if disp i then moveLoop disp rest (i + 1) p else (.error (), pos)

/-- `GhostPage::move_mouse_human`'s traversal of a path starting from the
current shared mouse position. -/
def move_mouse_human_loop (disp : ℕ → Bool) (path : List GPoint) (start : GPoint) :
    Except Unit Unit × GPoint :=
  moveLoop disp path 0 start

/-! ### Typing (`src/ghost.rs` lines 160-195) -/

/-- Outcome of a call to `type_text_with_delay`: normal return, a propagated
transport error, or a Rust panic. -/
inductive TypeResult where
  | ok
  | err
  | panicked
deriving DecidableEq

/-- Model of the loop of `GhostPage::type_text_with_delay`.  `disp k` is
whether the k-th `execute` call succeeds; the trace records successfully
dispatched key events.  `rand::Rng::gen_range(min..max)` panics when the
range `min..max` is empty (`min >= max`); that draw happens after the
character's key-down/key-up pair has been dispatched.  The drawn delay values
and the 5% `gen_bool` branch only feed `tokio::time::sleep` and cannot affect
the outcome or the trace, so they are not modelled. -/
def typeLoop (disp : ℕ → Bool) (minD maxD : ℕ) :
    List Char → ℕ → TypeResult × List CdpCommand
  | [], _ => (.ok, [])
  | c :: rest, k =>
    if disp k then
      if disp (k + 1) then
        if minD < maxD then
          let r := typeLoop disp minD maxD rest (k + 2)
          (r.1, CdpCommand.keyDown (some c) :: CdpCommand.keyUp :: r.2)
        else (.panicked, [CdpCommand.keyDown (some c), CdpCommand.keyUp])
      else (.err, [CdpCommand.keyDown (some c)])
    else (.err, [])

/-- `GhostPage::type_text_with_delay` on a text, starting with no dispatched
events. -/
def type_text_with_delay (disp : ℕ → Bool) (text : List Char) (minD maxD : ℕ) :
    TypeResult × List CdpCommand :=
  typeLoop disp minD maxD text 0

/-! ### Scrolling (`src/ghost.rs` lines 257-304) -/

/-- The step count of `GhostPage::scroll_human`:
`(delta_y.abs() / 50).max(3).min(15) as usize`. -/
def scrollSteps (dy : ℤ) : ℕ := (minI (maxI (Int.tdiv (absWrap dy) 50) 3) 15).toNat

/-- The ease-in/ease-out factor of `scroll_human` for iteration `i` of `n`:
half speed below 30% and above 70% progress, full speed in between. -/
def easeFor (i n : ℕ) : ℚ :=
  let p : ℚ := (i : ℚ) / (n : ℚ)
  if p < 3/10 then p / (3/10) * (1/2) + 1/2
  else if 7/10 < p then (1 - p) / (3/10) * (1/2) + 1/2
  else 1

/-- The loop body of `scroll_human`, iterating over the loop indices
`0..steps` still to be run.  `jit i` is the `gen_range(-10..10)` draw of
iteration `i`.  Per iteration: `base = remaining / (steps - i)` in `i32`
division, `step = ((base as f64 * ease) as i32 + jitter).clamp(-200, 200)`;
zero steps are skipped without dispatching.  Returns the list of dispatched
wheel deltas and the final value of `remaining`. -/
def scrollLoop (n : ℕ) (jit : ℕ → ℤ) : List ℕ → ℤ → List ℤ × ℤ
  | [], r => ([], r)
  | i :: rest, r =>
    let base := Int.tdiv r ((n - i : ℕ) : ℤ)
    let step := clampI (f64AsI32 ((base : ℚ) * easeFor i n) + jit i) (-200) 200
    if step = 0 then scrollLoop n jit rest r
    else
      let out := scrollLoop n jit rest (r - step)
      (step :: out.1, out.2)

/-- `GhostPage::scroll_human`: split `dy` into `scrollSteps dy` eased steps,
running the loop for `i in 0..steps`. -/
def scroll_human (dy : ℤ) (jit : ℕ → ℤ) : List ℤ × ℤ :=
  scrollLoop (scrollSteps dy) jit (List.range (scrollSteps dy)) dy

/-- Sum of a list of integers. -/
def sumZ (l : List ℤ) : ℤ := l.sum

/-! ### Arithmetic helper lemmas for the scroll model -/

/-- Truncating division through Euclidean division, in a form omega can use. -/
theorem tdiv_eq_ediv_cases (a b : ℤ) (hb : 0 ≤ b) :
    Int.tdiv a b = if 0 ≤ a then a / b else -(-a / b) := by
  split_ifs with h
  · exact Int.tdiv_eq_ediv h hb
  · have h2 := @Int.tdiv_eq_ediv (-a) b (by omega) hb
    rw [Int.neg_tdiv] at h2
    omega

/-- Truncation of an integer is the integer. -/
theorem truncRat_intCast (b : ℤ) : truncRat ((b : ℚ)) = b := by
  unfold truncRat
  split_ifs with h
  · exact Int.floor_intCast b
  · exact Int.ceil_intCast b

/-- Truncation of half an integer is its truncating division by two (the
multiplication by the exact float 0.5 is exact in `f64` as well). -/
theorem truncRat_intCast_div_two (b : ℤ) : truncRat ((b : ℚ) / 2) = Int.tdiv b 2 := by
  have hfl : ∀ c : ℤ, ⌊(c : ℚ) / 2⌋ = c / 2 := by
    intro c
    rw [Int.floor_eq_iff]
    constructor
    · rw [le_div_iff (by norm_num)]
      have hle : c / 2 * 2 ≤ c := by omega
      exact_mod_cast hle
    · rw [div_lt_iff (by norm_num)]
      have hlt : c < (c / 2 + 1) * 2 := by omega
      exact_mod_cast hlt
  unfold truncRat
  rw [tdiv_eq_ediv_cases b 2 (by norm_num)]
  have hiff : (0 ≤ (b : ℚ) / 2) ↔ 0 ≤ b := by
    rw [le_div_iff (by norm_num)]
    constructor
    · intro h; exact_mod_cast h
    · intro h
      have : (0:ℚ) ≤ (b:ℚ) := by exact_mod_cast h
      linarith
  split_ifs with h1 h2 h2
  · exact hfl b
  · exact absurd (hiff.mp h1) h2
  · exact absurd (hiff.mpr h2) h1
  · rw [show ((b : ℚ) / 2) = -(((-b : ℤ) : ℚ) / 2) from by push_cast; ring, Int.ceil_neg,
      hfl (-b)]

/-- The saturating cast is the identity on already-representable values. -/
theorem f64AsI32_eq (q : ℚ) (h1 : -(2 ^ 31) ≤ truncRat q) (h2 : truncRat q ≤ 2 ^ 31 - 1) :
    f64AsI32 q = truncRat q := by
  unfold f64AsI32 maxI minI
  split_ifs <;> omega

/-- `clamp(-200, 200)` is the identity inside the clamping window. -/
theorem clampI_eq (x : ℤ) (h1 : -200 ≤ x) (h2 : x ≤ 200) : clampI x (-200) 200 = x := by
  unfold clampI maxI minI
  split_ifs <;> omega

/-- One-step unfolding of the scroll loop on a cons cell. -/
theorem scrollLoop_cons (n : ℕ) (jit : ℕ → ℤ) (i : ℕ) (rest : List ℕ) (r : ℤ) :
    scrollLoop n jit (i :: rest) r =
      if clampI (f64AsI32 ((Int.tdiv r ((n - i : ℕ) : ℤ) : ℚ) * easeFor i n) + jit i)
          (-200) 200 = 0
      then scrollLoop n jit rest r
      else
        (clampI (f64AsI32 ((Int.tdiv r ((n - i : ℕ) : ℤ) : ℚ) * easeFor i n) + jit i)
            (-200) 200 ::
          (scrollLoop n jit rest
            (r - clampI (f64AsI32 ((Int.tdiv r ((n - i : ℕ) : ℤ) : ℚ) * easeFor i n) + jit i)
              (-200) 200)).1,
          (scrollLoop n jit rest
            (r - clampI (f64AsI32 ((Int.tdiv r ((n - i : ℕ) : ℤ) : ℚ) * easeFor i n) + jit i)
              (-200) 200)).2) := rfl

/-- The scroll loop on the empty index list. -/
theorem scrollLoop_nil (n : ℕ) (jit : ℕ → ℤ) (r : ℤ) : scrollLoop n jit [] r = ([], r) := rfl

/-- The dispatched deltas always sum to the initial minus the final value of
`remaining` (the source's `remaining -= step`). -/
theorem scrollLoop_sum (n : ℕ) (jit : ℕ → ℤ) :
    ∀ (l : List ℕ) (r : ℤ), sumZ (scrollLoop n jit l r).1 = r - (scrollLoop n jit l r).2 := by
  intro l
  induction l with
  | nil => intro r; simp [scrollLoop, sumZ]
  | cons i rest ih =>
    intro r
    rw [scrollLoop_cons]
    split_ifs with h
    · exact ih r
    · have h2 := ih (r - clampI (f64AsI32 ((Int.tdiv r ((n - i : ℕ) : ℤ) : ℚ) * easeFor i n)
        + jit i) (-200) 200)
      simp only [sumZ, List.sum_cons] at h2 ⊢
      omega

/-- One step of the remaining-value evaluation, for concrete runs. -/
theorem scrollLoop_snd_step (n : ℕ) (jit : ℕ → ℤ) (i : ℕ) (rest : List ℕ) (r s : ℤ)
    (hs : clampI (f64AsI32 ((Int.tdiv r ((n - i : ℕ) : ℤ) : ℚ) * easeFor i n) + jit i)
      (-200) 200 = s)
    (hne : s ≠ 0) :
    (scrollLoop n jit (i :: rest) r).2 = (scrollLoop n jit rest (r - s)).2 := by
  rw [scrollLoop_cons, hs, if_neg hne]

/-! ### Fingerprint profiles (`src/profiles.rs`) -/

/-- Operating system presets (`profiles.rs` lines 82-92). -/
inductive Os where
  | Windows
  | MacOSIntel
  | MacOSArm
  | Linux
deriving DecidableEq

/-- `Os::platform`: the spoofed `navigator.platform` value. -/
def Os.platform : Os → List Char
  | .Windows => ("Win32").data
  | .MacOSIntel | .MacOSArm => ("MacIntel").data
  | .Linux => ("Linux x86_64").data

/-- `Os::hints_platform`: the client-hints platform name. -/
def Os.hints_platform : Os → List Char
  | .Windows => ("Windows").data
  | .MacOSIntel | .MacOSArm => ("macOS").data
  | .Linux => ("Linux").data

/-- GPU presets for WebGL spoofing (`profiles.rs` lines 22-42). -/
inductive Gpu where
  | NvidiaRTX3080
  | NvidiaRTX4080
  | NvidiaGTX1660
  | IntelUHD630
  | IntelIrisXe
  | AppleM1Pro
  | AppleM2Max
  | AppleM4Max
  | AmdRadeonRX6800
deriving DecidableEq

/-- `Gpu::vendor`: the WebGL vendor string. -/
def Gpu.vendor : Gpu → List Char
  | .NvidiaRTX3080 | .NvidiaRTX4080 | .NvidiaGTX1660 => ("Google Inc. (NVIDIA)").data
  | .IntelUHD630 | .IntelIrisXe => ("Google Inc. (Intel)").data
  | .AppleM1Pro | .AppleM2Max | .AppleM4Max => ("Google Inc. (Apple)").data
  | .AmdRadeonRX6800 => ("Google Inc. (AMD)").data

/-- `Gpu::renderer`: the WebGL renderer string. -/
def Gpu.renderer : Gpu → List Char
  | .NvidiaRTX3080 => ("ANGLE (NVIDIA, NVIDIA GeForce RTX 3080 Direct3D11 vs_5_0 ps_5_0)").data
  | .NvidiaRTX4080 => ("ANGLE (NVIDIA, NVIDIA GeForce RTX 4080 Direct3D11 vs_5_0 ps_5_0)").data
  | .NvidiaGTX1660 => ("ANGLE (NVIDIA, NVIDIA GeForce GTX 1660 SUPER Direct3D11 vs_5_0 ps_5_0)").data
  | .IntelUHD630 => ("ANGLE (Intel, Intel(R) UHD Graphics 630 Direct3D11 vs_5_0 ps_5_0)").data
  | .IntelIrisXe => ("ANGLE (Intel, Intel(R) Iris(R) Xe Graphics Direct3D11 vs_5_0 ps_5_0)").data
  | .AppleM1Pro => ("ANGLE (Apple, Apple M1 Pro, OpenGL 4.1)").data
  | .AppleM2Max => ("ANGLE (Apple, Apple M2 Max, OpenGL 4.1)").data
  | .AppleM4Max => ("ANGLE (Apple, ANGLE Metal Renderer: Apple M4 Max, Unspecified Version)").data
  | .AmdRadeonRX6800 => ("ANGLE (AMD, AMD Radeon RX 6800 XT Direct3D11 vs_5_0 ps_5_0)").data

/-- The immutable fingerprint profile (`profiles.rs` lines 134-146).  The
source field `device_pixel_ratio: f32` is modelled by the rational field
`dpr` (renamed to stay clear of this file's naming conventions). -/
structure ChaserProfile where
  os : Os
  chrome_version : ℕ
  gpu : Gpu
  memory_gb : ℕ
  cpu_cores : ℕ
  locale : List Char
  timezone : List Char
  screen_width : ℕ
  screen_height : ℕ
  dpr : ℚ
deriving DecidableEq

/-- The profile builder (`profiles.rs` lines 671-683); same fields. -/
structure ChaserProfileBuilder where
  os : Os
  chrome_version : ℕ
  gpu : Gpu
  memory_gb : ℕ
  cpu_cores : ℕ
  locale : List Char
  timezone : List Char
  screen_width : ℕ
  screen_height : ℕ
  dpr : ℚ
deriving DecidableEq

/-- `ChaserProfile::new` (`profiles.rs` lines 157-183): a builder seeded with
the OS-specific defaults. -/
def ChaserProfile.new (os : Os) : ChaserProfileBuilder :=
  let seed : ℕ × ℕ × ℚ × ℕ :=
    match os with
    | .Windows => (1920, 1080, 1, 8)
    | .MacOSIntel => (1440, 900, 2, 8)
    | .MacOSArm => (1728, 1117, 2, 14)
    | .Linux => (1920, 1080, 1, 8)
  { os := os
    chrome_version := 131
    gpu :=
      match os with
      | .Windows => .NvidiaRTX3080
      | .MacOSIntel => .AppleM1Pro
      | .MacOSArm => .AppleM4Max
      | .Linux => .NvidiaGTX1660
    memory_gb := 8
    cpu_cores := seed.2.2.2
    locale := ("en-US").data
    timezone := ("America/New_York").data
    screen_width := seed.1
    screen_height := seed.2.1
    dpr := seed.2.2.1 }

/-- `ChaserProfile::windows`. -/
def ChaserProfile.windows : ChaserProfileBuilder := ChaserProfile.new .Windows

/-- `ChaserProfile::macos_intel`. -/
def ChaserProfile.macos_intel : ChaserProfileBuilder := ChaserProfile.new .MacOSIntel

/-- `ChaserProfile::macos_arm`. -/
def ChaserProfile.macos_arm : ChaserProfileBuilder := ChaserProfile.new .MacOSArm

/-- `ChaserProfile::linux`. -/
def ChaserProfile.linux : ChaserProfileBuilder := ChaserProfile.new .Linux

/-- Builder setter `gpu` (named `set_gpu` here because the field projection
already carries the source name). -/
def ChaserProfileBuilder.set_gpu (b : ChaserProfileBuilder) (g : Gpu) : ChaserProfileBuilder :=
  { b with gpu := g }

/-- Builder setter `memory_gb`. -/
def ChaserProfileBuilder.set_memory_gb (b : ChaserProfileBuilder) (gb : ℕ) : ChaserProfileBuilder :=
  { b with memory_gb := gb }

/-- Builder setter `cpu_cores`. -/
def ChaserProfileBuilder.set_cpu_cores (b : ChaserProfileBuilder) (cores : ℕ) : ChaserProfileBuilder :=
  { b with cpu_cores := cores }

/-- Builder setter `chrome_version`. -/
def ChaserProfileBuilder.set_chrome_version (b : ChaserProfileBuilder) (v : ℕ) : ChaserProfileBuilder :=
  { b with chrome_version := v }

/-- `ChaserProfileBuilder::build` (`profiles.rs` lines 736-749). -/
def ChaserProfileBuilder.build (b : ChaserProfileBuilder) : ChaserProfile :=
  { os := b.os
    chrome_version := b.chrome_version
    gpu := b.gpu
    memory_gb := b.memory_gb
    cpu_cores := b.cpu_cores
    locale := b.locale
    timezone := b.timezone
    screen_width := b.screen_width
    screen_height := b.screen_height
    dpr := b.dpr }

/-- `Os` part of the User-Agent string (`ChaserProfile::user_agent`). -/
def Os.ua_part : Os → List Char
  | .Windows => ("Windows NT 10.0; Win64; x64").data
  | .MacOSIntel | .MacOSArm => ("Macintosh; Intel Mac OS X 10_15_7").data
  | .Linux => ("X11; Linux x86_64").data

/-- `ChaserProfile::user_agent` (`profiles.rs` lines 267-277). -/
def ChaserProfile.user_agent (p : ChaserProfile) : List Char :=
  ("Mozilla/5.0 (").data ++ p.os.ua_part ++
    (") AppleWebKit/537.36 (KHTML, like Gecko) Chrome/").data ++
    natDigits p.chrome_version ++ (".0.0.0 Safari/537.36").data

/-- Decimal rendering of the `f32` field `device_pixel_ratio` as Rust's
`Display` prints it: integral values print with no fractional part, values
with one decimal digit print that digit.  The profiles this crate constructs
only ever hold 1.0 and 2.0, which fall in the first branch. -/
def ratText (q : ℚ) : List Char :=
  if q.den = 1 then intDigits q.num
  else intDigits ⌊q⌋ ++ ('.' :: natDigits ((q - ⌊q⌋) * 10).num.toNat)

/-- The anchor used to locate the spoofed core count: the property name. -/
def anchorHW : List Char := ("hardwareConcurrency").data

/-- The anchor that directly precedes the interpolated core count. -/
def anchorReturn : List Char := ("return ").data

/-- Literal chunk 0 of the bootstrap-script template. -/
def bsChunk0 : List Char := ("\n            (function() \x7b\n                // === chaser-oxide \"GOD MODE\" STEALTH (UNIFIED) ===\n                // Profile: ").data

/-- Literal chunk 1 of the bootstrap-script template. -/
def bsChunk1 : List Char := ("\n\n                // ========== HELPER: Make functions appear native ==========\n                // Recursive toString protection - prevents func.toString.toString() leak\n                const makeNative = (func, name) => \x7b\n                    Object.defineProperty(func, \x27name\x27, \x7b value: name \x7d);\n                    const nativeStr = \x60function $\x7bname\x7d() \x7b [native code] \x7d\x60;\n                    const newToString = function() \x7b return nativeStr; \x7d;\n                    Object.defineProperty(newToString, \x27toString\x27, \x7b\n                        value: function() \x7b return \"function toString() \x7b [native code] \x7d\"; \x7d\n                    \x7d);\n                    Object.defineProperty(newToString, \x27name\x27, \x7b value: \x27toString\x27 \x7d);\n                    Object.defineProperty(func, \x27toString\x27, \x7b\n                        value: newToString,\n                        writable: true, enumerable: false, configurable: true\n                    \x7d);\n                    return func;\n                \x7d;\n\n                // ========== CDP/AUTOMATION MARKER CLEANUP ==========\n                const cleanCDPMarkers = () => \x7b\n                    for (const prop of Object.keys(window)) \x7b\n                        if (prop.match(/^cdc_|^\\\\$cdc_|^__webdriver|^__selenium|^__driver/)) \x7b\n                            try \x7b delete window[prop]; \x7d catch(e) \x7b\x7d\n                        \x7d\n                    \x7d\n                    for (const prop of Object.keys(document)) \x7b\n                        if (prop.match(/^\\\\$cdc_|^__webdriver|^__selenium|^__driver|^\\\\$chrome_/)) \x7b\n                            try \x7b delete document[prop]; \x7d catch(e) \x7b\x7d\n                        \x7d\n                    \x7d\n                \x7d;\n                cleanCDPMarkers();\n                setInterval(cleanCDPMarkers, 100);\n\n                // Get Navigator prototype\n                const navProto = Object.getPrototypeOf(navigator);\n\n                // ========== 1. PLATFORM & HARDWARE ==========\n                Object.defineProperty(navProto, \x27platform\x27, \x7b\n                    get: makeNative(function() \x7b return \x27").data

/-- Literal chunk 2 of the bootstrap-script template. -/
def bsChunk2 : List Char := ("\x27; \x7d, \x27get platform\x27),\n                    configurable: true, enumerable: true\n                \x7d);\n                Object.defineProperty(navProto, \x27").data

/-- Literal chunk 3 of the bootstrap-script template. -/
def bsChunk3 : List Char := ("\x27, \x7b\n                    get: makeNative(function() \x7b ").data

/-- Literal chunk 4 of the bootstrap-script template. -/
def bsChunk4 : List Char := ("; \x7d, \x27get hardwareConcurrency\x27),\n                    configurable: true, enumerable: true\n                \x7d);\n                Object.defineProperty(navProto, \x27deviceMemory\x27, \x7b\n                    get: makeNative(function() \x7b return ").data

/-- Literal chunk 5 of the bootstrap-script template. -/
def bsChunk5 : List Char := ("; \x7d, \x27get deviceMemory\x27),\n                    configurable: true, enumerable: true\n                \x7d);\n                Object.defineProperty(navProto, \x27maxTouchPoints\x27, \x7b\n                    get: makeNative(function() \x7b return 0; \x7d, \x27get maxTouchPoints\x27),\n                    configurable: true, enumerable: true\n                \x7d);\n\n                // ========== 2. SCREEN & DPR ==========\n                Object.defineProperty(window, \x27devicePixelRatio\x27, \x7b\n                    get: makeNative(function() \x7b return ").data

/-- Literal chunk 6 of the bootstrap-script template. -/
def bsChunk6 : List Char := ("; \x7d, \x27get devicePixelRatio\x27),\n                    configurable: true, enumerable: true\n                \x7d);\n                Object.defineProperty(screen, \x27width\x27, \x7b\n                    get: makeNative(function() \x7b return ").data

/-- Literal chunk 7 of the bootstrap-script template. -/
def bsChunk7 : List Char := ("; \x7d, \x27get width\x27),\n                    configurable: true\n                \x7d);\n                Object.defineProperty(screen, \x27height\x27, \x7b\n                    get: makeNative(function() \x7b return ").data

/-- Literal chunk 8 of the bootstrap-script template. -/
def bsChunk8 : List Char := ("; \x7d, \x27get height\x27),\n                    configurable: true\n                \x7d);\n                Object.defineProperty(screen, \x27availWidth\x27, \x7b\n                    get: makeNative(function() \x7b return ").data

/-- Literal chunk 9 of the bootstrap-script template. -/
def bsChunk9 : List Char := ("; \x7d, \x27get availWidth\x27),\n                    configurable: true\n                \x7d);\n                Object.defineProperty(screen, \x27availHeight\x27, \x7b\n                    get: makeNative(function() \x7b return ").data

/-- Literal chunk 10 of the bootstrap-script template. -/
def bsChunk10 : List Char := ("; \x7d, \x27get availHeight\x27),\n                    configurable: true\n                \x7d);\n\n                // Spoof outerWidth/outerHeight to match (prevents TARDIS effect)\n                // outerWidth should be >= innerWidth, add ~100px for browser chrome\n                Object.defineProperty(window, \x27outerWidth\x27, \x7b\n                    get: makeNative(function() \x7b return ").data

/-- Literal chunk 11 of the bootstrap-script template. -/
def bsChunk11 : List Char := ("; \x7d, \x27get outerWidth\x27),\n                    configurable: true\n                \x7d);\n                Object.defineProperty(window, \x27outerHeight\x27, \x7b\n                    get: makeNative(function() \x7b return ").data

/-- Literal chunk 12 of the bootstrap-script template. -/
def bsChunk12 : List Char := (" + 85; \x7d, \x27get outerHeight\x27),\n                    configurable: true\n                \x7d);\n\n                // ========== 3. WEBGL ==========\n                const spoofWebGL = (proto) => \x7b\n                    const originalGetParameter = proto.getParameter;\n                    proto.getParameter = makeNative(function(parameter) \x7b\n                        try \x7b\n                            if (parameter === 37445) return \x27").data

/-- Literal chunk 13 of the bootstrap-script template. -/
def bsChunk13 : List Char := ("\x27;\n                            if (parameter === 37446) return \x27").data

/-- Literal chunk 14 of the bootstrap-script template. -/
def bsChunk14 : List Char := ("\x27;\n                            return originalGetParameter.apply(this, arguments);\n                        \x7d catch(e) \x7b\n                            if (e && e.stack) \x7b\n                                e.stack = e.stack.split(\x27\\\\n\x27).filter(line => \n                                    !line.includes(\x27Object.apply\x27) && !line.includes(\x27<anonymous>\x27)\n                                ).join(\x27\\\\n\x27);\n                            \x7d\n                            throw e;\n                        \x7d\n                    \x7d, \x27getParameter\x27);\n                \x7d;\n                try \x7b\n                    spoofWebGL(WebGLRenderingContext.prototype);\n                    if (typeof WebGL2RenderingContext !== \x27undefined\x27) \x7b\n                        spoofWebGL(WebGL2RenderingContext.prototype);\n                    \x7d\n                \x7d catch(e) \x7b\x7d\n\n                // ========== 4. CLIENT HINTS (userAgentData) ==========\n                Object.defineProperty(navProto, \x27userAgentData\x27, \x7b\n                    get: makeNative(function() \x7b\n                        return \x7b\n                            brands: [\n                                \x7b brand: \"Google Chrome\", version: \"").data

/-- Literal chunk 15 of the bootstrap-script template. -/
def bsChunk15 : List Char := ("\" \x7d,\n                                \x7b brand: \"Chromium\", version: \"").data

/-- Literal chunk 16 of the bootstrap-script template. -/
def bsChunk16 : List Char := ("\" \x7d,\n                                \x7b brand: \"Not=A?Brand\", version: \"24\" \x7d\n                            ],\n                            mobile: false,\n                            platform: \"").data

/-- Literal chunk 17 of the bootstrap-script template. -/
def bsChunk17 : List Char := ("\",\n                            getHighEntropyValues: makeNative(async function(hints) \x7b\n                                return \x7b\n                                    architecture: \"x86\",\n                                    bitness: \"64\",\n                                    brands: [\n                                        \x7b brand: \"Google Chrome\", version: \"").data

/-- Literal chunk 18 of the bootstrap-script template. -/
def bsChunk18 : List Char := ("\" \x7d,\n                                        \x7b brand: \"Chromium\", version: \"").data

/-- Literal chunk 19 of the bootstrap-script template. -/
def bsChunk19 : List Char := ("\" \x7d,\n                                        \x7b brand: \"Not=A?Brand\", version: \"24\" \x7d\n                                    ],\n                                    fullVersionList: [\n                                        \x7b brand: \"Google Chrome\", version: \"").data

/-- Literal chunk 20 of the bootstrap-script template. -/
def bsChunk20 : List Char := (".0.0.0\" \x7d,\n                                        \x7b brand: \"Chromium\", version: \"").data

/-- Literal chunk 21 of the bootstrap-script template. -/
def bsChunk21 : List Char := (".0.0.0\" \x7d,\n                                        \x7b brand: \"Not=A?Brand\", version: \"24.0.0.0\" \x7d\n                                    ],\n                                    mobile: false,\n                                    model: \"\",\n                                    platform: \"").data

/-- Literal chunk 22 of the bootstrap-script template. -/
def bsChunk22 : List Char := ("\",\n                                    platformVersion: \"10.0.0\",\n                                    uaFullVersion: \"").data

/-- Literal chunk 23 of the bootstrap-script template. -/
def bsChunk23 : List Char := (".0.0.0\"\n                                \x7d;\n                            \x7d, \x27getHighEntropyValues\x27),\n                            toJSON: makeNative(function() \x7b\n                                return \x7b\n                                    brands: [\n                                        \x7b brand: \"Google Chrome\", version: \"").data

/-- Literal chunk 24 of the bootstrap-script template. -/
def bsChunk24 : List Char := ("\" \x7d,\n                                        \x7b brand: \"Chromium\", version: \"").data

/-- Literal chunk 25 of the bootstrap-script template. -/
def bsChunk25 : List Char := ("\" \x7d,\n                                        \x7b brand: \"Not=A?Brand\", version: \"24\" \x7d\n                                    ],\n                                    mobile: false,\n                                    platform: \"").data

/-- Literal chunk 26 of the bootstrap-script template. -/
def bsChunk26 : List Char := ("\"\n                                \x7d;\n                            \x7d, \x27toJSON\x27)\n                        \x7d;\n                    \x7d, \x27get userAgentData\x27),\n                    configurable: true, enumerable: true\n                \x7d);\n\n                // ========== 5. VIDEO CODECS ==========\n                const originalCanPlayType = HTMLMediaElement.prototype.canPlayType;\n                HTMLMediaElement.prototype.canPlayType = makeNative(function(type) \x7b\n                    if (!type) return originalCanPlayType.apply(this, arguments);\n                    if (type.includes(\x27avc1\x27) || type.includes(\x27mp4a.40\x27) || type === \x27video/mp4\x27 || type === \x27audio/mp4\x27) \x7b\n                        return \x27probably\x27;\n                    \x7d\n                    return originalCanPlayType.apply(this, arguments);\n                \x7d, \x27canPlayType\x27);\n\n                // ========== 6. WEBDRIVER (DELETE ONLY - don\x27t mock it) ==========\n                // Just kill it. Don\x27t redefine - that creates a detectable property descriptor.\n                try \x7b delete Object.getPrototypeOf(navigator).webdriver; \x7d catch(e) \x7b\x7d\n\n                // ========== 7. TIMEZONE & LOCALE ==========\n                Object.defineProperty(navProto, \x27language\x27, \x7b\n                    get: makeNative(function() \x7b return \x27").data

/-- Literal chunk 27 of the bootstrap-script template. -/
def bsChunk27 : List Char := ("\x27; \x7d, \x27get language\x27),\n                    configurable: true, enumerable: true\n                \x7d);\n                Object.defineProperty(navProto, \x27languages\x27, \x7b\n                    get: makeNative(function() \x7b return [\x27").data

/-- Literal chunk 28 of the bootstrap-script template. -/
def bsChunk28 : List Char := ("\x27, \x27en\x27]; \x7d, \x27get languages\x27),\n                    configurable: true, enumerable: true\n                \x7d);\n\n                // Mock Intl.DateTimeFormat for timezone\n                const originalDateTimeFormat = Intl.DateTimeFormat;\n                Intl.DateTimeFormat = makeNative(function(locales, options) \x7b\n                    const opts = options || \x7b\x7d;\n                    if (!opts.timeZone) opts.timeZone = \x27").data

/-- Literal chunk 29 of the bootstrap-script template. -/
def bsChunk29 : List Char := ("\x27;\n                    const formatter = new originalDateTimeFormat(locales || \x27").data

/-- Literal chunk 30 of the bootstrap-script template. -/
def bsChunk30 : List Char := ("\x27, opts);\n                    const origResolved = formatter.resolvedOptions.bind(formatter);\n                    formatter.resolvedOptions = makeNative(function() \x7b\n                        const result = origResolved();\n                        result.timeZone = \x27").data

/-- Literal chunk 31 of the bootstrap-script template. -/
def bsChunk31 : List Char := ("\x27;\n                        result.locale = \x27").data

/-- Literal chunk 32 of the bootstrap-script template. -/
def bsChunk32 : List Char := ("\x27;\n                        return result;\n                    \x7d, \x27resolvedOptions\x27);\n                    return formatter;\n                \x7d, \x27DateTimeFormat\x27);\n                Intl.DateTimeFormat.prototype = originalDateTimeFormat.prototype;\n                Intl.DateTimeFormat.supportedLocalesOf = originalDateTimeFormat.supportedLocalesOf;\n\n                // ========== 8. WINDOW.CHROME (complete) ==========\n                if (!window.chrome) \x7b\n                    Object.defineProperty(window, \x27chrome\x27, \x7b\n                        writable: true, enumerable: true, configurable: false, value: \x7b\x7d\n                    \x7d);\n                \x7d\n                if (!window.chrome.runtime) \x7b\n                    Object.defineProperty(window.chrome, \x27runtime\x27, \x7b\n                        writable: true, enumerable: true, configurable: false, value: \x7b\x7d\n                    \x7d);\n                \x7d\n                if (!window.chrome.runtime.connect) \x7b\n                    Object.defineProperty(window.chrome.runtime, \x27connect\x27, \x7b\n                        configurable: false, enumerable: true, writable: true,\n                        value: makeNative(function() \x7b\n                            return \x7b\n                                name: \x27\x27,\n                                onDisconnect: \x7b addListener: function()\x7b\x7d, removeListener: function()\x7b\x7d, hasListener: function()\x7b\x7d, hasListeners: function()\x7b\x7d, dispatch: function()\x7b\x7d \x7d,\n                                onMessage: \x7b addListener: function()\x7b\x7d, removeListener: function()\x7b\x7d, hasListener: function()\x7b\x7d, hasListeners: function()\x7b\x7d, dispatch: function()\x7b\x7d \x7d,\n                                postMessage: function()\x7b\x7d,\n                                disconnect: function()\x7b\x7d\n                            \x7d;\n                        \x7d, \x27connect\x27)\n                    \x7d);\n                \x7d\n                if (!window.chrome.runtime.sendMessage) \x7b\n                    Object.defineProperty(window.chrome.runtime, \x27sendMessage\x27, \x7b\n                        configurable: false, enumerable: true, writable: true,\n                        value: makeNative(function() \x7b return; \x7d, \x27sendMessage\x27)\n                    \x7d);\n                \x7d\n                if (!window.chrome.csi) \x7b\n                    Object.defineProperty(window.chrome, \x27csi\x27, \x7b\n                        configurable: false, enumerable: true, writable: true,\n                        value: makeNative(function() \x7b\n                            return \x7b startE: Date.now(), onloadT: Date.now(), pageT: Date.now(), tran: 15 \x7d;\n                        \x7d, \x27csi\x27)\n                    \x7d);\n                \x7d\n                if (!window.chrome.loadTimes) \x7b\n                    Object.defineProperty(window.chrome, \x27loadTimes\x27, \x7b\n                        configurable: false, enumerable: true, writable: true,\n                        value: makeNative(function() \x7b\n                            return \x7b\n                                requestTime: Date.now() / 1000, startLoadTime: Date.now() / 1000,\n                                commitLoadTime: Date.now() / 1000, finishDocumentLoadTime: Date.now() / 1000,\n                                finishLoadTime: Date.now() / 1000, firstPaintTime: Date.now() / 1000,\n                                firstPaintAfterLoadTime: 0, navigationType: \"Other\",\n                                wasFetchedViaSpdy: false, wasNpnNegotiated: false,\n                                npnNegotiatedProtocol: \"\", wasAlternateProtocolAvailable: false,\n                                connectionInfo: \"http/1.1\"\n                            \x7d;\n                        \x7d, \x27loadTimes\x27)\n                    \x7d);\n                \x7d\n                if (!window.chrome.app) \x7b\n                    Object.defineProperty(window.chrome, \x27app\x27, \x7b\n                        configurable: false, enumerable: true, writable: true,\n                        value: \x7b\n                            isInstalled: false,\n                            InstallState: \x7b DISABLED: \x27disabled\x27, INSTALLED: \x27installed\x27, NOT_INSTALLED: \x27not_installed\x27 \x7d,\n                            RunningState: \x7b CANNOT_RUN: \x27cannot_run\x27, READY_TO_RUN: \x27ready_to_run\x27, RUNNING: \x27running\x27 \x7d,\n                            getIsInstalled: makeNative(function() \x7b return false; \x7d, \x27getIsInstalled\x27),\n                            getDetails: makeNative(function() \x7b return null; \x7d, \x27getDetails\x27)\n                        \x7d\n                    \x7d);\n                \x7d\n                if (!window.chrome.webstore) \x7b\n                    Object.defineProperty(window.chrome, \x27webstore\x27, \x7b\n                        configurable: false, enumerable: true, writable: true,\n                        value: \x7b onInstallStageChanged: \x7b\x7d, onDownloadProgress: \x7b\x7d \x7d\n                    \x7d);\n                \x7d\n\n                // ========== 9. PLUGINS ==========\n                const makePlugin = (name, filename, description) => \x7b\n                    const plugin = Object.create(Plugin.prototype);\n                    Object.defineProperties(plugin, \x7b\n                        name: \x7b value: name, enumerable: true \x7d,\n                        filename: \x7b value: filename, enumerable: true \x7d,\n                        description: \x7b value: description, enumerable: true \x7d,\n                        length: \x7b value: 1, enumerable: true \x7d,\n                        0: \x7b value: \x7b type: \x27application/pdf\x27, suffixes: \x27pdf\x27, description \x7d, enumerable: true \x7d\n                    \x7d);\n                    return plugin;\n                \x7d;\n                const fakePlugins = Object.create(PluginArray.prototype);\n                const pluginList = [\n                    makePlugin(\x27PDF Viewer\x27, \x27internal-pdf-viewer\x27, \x27Portable Document Format\x27),\n                    makePlugin(\x27Chrome PDF Viewer\x27, \x27internal-pdf-viewer\x27, \x27Portable Document Format\x27),\n                    makePlugin(\x27Chromium PDF Viewer\x27, \x27internal-pdf-viewer\x27, \x27Portable Document Format\x27),\n                    makePlugin(\x27Microsoft Edge PDF Viewer\x27, \x27internal-pdf-viewer\x27, \x27Portable Document Format\x27),\n                    makePlugin(\x27WebKit built-in PDF\x27, \x27internal-pdf-viewer\x27, \x27Portable Document Format\x27)\n                ];\n                pluginList.forEach((p, i) => \x7b\n                    Object.defineProperty(fakePlugins, i, \x7b value: p, enumerable: true \x7d);\n                \x7d);\n                Object.defineProperty(fakePlugins, \x27length\x27, \x7b value: pluginList.length, enumerable: true \x7d);\n                Object.defineProperty(fakePlugins, \x27item\x27, \x7b \n                    value: makeNative(function(index) \x7b return this[index] || null; \x7d, \x27item\x27),\n                    enumerable: false\n                \x7d);\n                Object.defineProperty(fakePlugins, \x27namedItem\x27, \x7b \n                    value: makeNative(function(name) \x7b \n                        for (let i = 0; i < this.length; i++) if (this[i].name === name) return this[i];\n                        return null;\n                    \x7d, \x27namedItem\x27),\n                    enumerable: false\n                \x7d);\n                Object.defineProperty(fakePlugins, \x27refresh\x27, \x7b \n                    value: makeNative(function() \x7b\x7d, \x27refresh\x27),\n                    enumerable: false \n                \x7d);\n                Object.defineProperty(fakePlugins, Symbol.iterator, \x7b\n                    value: function* () \x7b for (let i = 0; i < this.length; i++) yield this[i]; \x7d,\n                    enumerable: false\n                \x7d);\n                Object.defineProperty(navProto, \x27plugins\x27, \x7b \n                    get: makeNative(function() \x7b return fakePlugins; \x7d, \x27get plugins\x27),\n                    configurable: true, enumerable: true\n                \x7d);\n\n                // ========== 10. PERMISSIONS ==========\n                try \x7b\n                    const originalQuery = window.navigator.permissions.query;\n                    Object.defineProperty(window.navigator.permissions.__proto__, \x27query\x27, \x7b\n                        value: makeNative(function(parameters) \x7b\n                            return parameters.name === \x27notifications\x27\n                                ? Promise.resolve(\x7b state: Notification.permission \x7d)\n                                : originalQuery.call(this, parameters);\n                        \x7d, \x27query\x27),\n                        writable: true, configurable: true\n                    \x7d);\n                \x7d catch(e) \x7b\x7d\n\n                // ========== 11. IFRAME PROTECTION ==========\n                const originalCreateElement = document.createElement;\n                document.createElement = makeNative(function(...args) \x7b\n                    const element = originalCreateElement.apply(this, args);\n                    if (args[0] && args[0].toLowerCase() === \x27iframe\x27) \x7b\n                        element.addEventListener(\x27load\x27, () => \x7b\n                            try \x7b\n                                if (element.contentWindow && !element.contentWindow.chrome) \x7b\n                                    element.contentWindow.chrome = window.chrome;\n                                \x7d\n                            \x7d catch(e) \x7b\x7d\n                        \x7d);\n                    \x7d\n                    return element;\n                \x7d, \x27createElement\x27);\n\n            \x7d)();\n        ").data

/-- `ChaserProfile::bootstrap_script` (`profiles.rs` lines 281-657): the
template text with every placeholder replaced by the profile field it names
(`format!` leaves no placeholder unresolved).  The literal chunk between the
platform property and the core count is split around the two anchors so the
extraction proofs can name them; their concatenation is the template text. -/
def ChaserProfile.bootstrap_script (p : ChaserProfile) : List Char :=
    bsChunk0 ++ ((ChaserProfile.user_agent p) ++ (bsChunk1 ++ ((p.os.platform) ++ (bsChunk2 ++
    (anchorHW ++ (bsChunk3 ++ (anchorReturn ++ ((natDigits p.cpu_cores) ++ (bsChunk4 ++
    ((natDigits p.memory_gb) ++ (bsChunk5 ++ ((ratText p.dpr) ++ (bsChunk6 ++ ((natDigits
    p.screen_width) ++ (bsChunk7 ++ ((natDigits p.screen_height) ++ (bsChunk8 ++ ((natDigits
    p.screen_width) ++ (bsChunk9 ++ ((natDigits p.screen_height) ++ (bsChunk10 ++ ((natDigits
    p.screen_width) ++ (bsChunk11 ++ ((natDigits p.screen_height) ++ (bsChunk12 ++
    ((p.gpu.vendor) ++ (bsChunk13 ++ ((p.gpu.renderer) ++ (bsChunk14 ++ ((natDigits
    p.chrome_version) ++ (bsChunk15 ++ ((natDigits p.chrome_version) ++ (bsChunk16 ++
    ((p.os.hints_platform) ++ (bsChunk17 ++ ((natDigits p.chrome_version) ++ (bsChunk18 ++
    ((natDigits p.chrome_version) ++ (bsChunk19 ++ ((natDigits p.chrome_version) ++ (bsChunk20
    ++ ((natDigits p.chrome_version) ++ (bsChunk21 ++ ((p.os.hints_platform) ++ (bsChunk22 ++
    ((natDigits p.chrome_version) ++ (bsChunk23 ++ ((natDigits p.chrome_version) ++ (bsChunk24
    ++ ((natDigits p.chrome_version) ++ (bsChunk25 ++ ((p.os.hints_platform) ++ (bsChunk26 ++
    ((p.locale) ++ (bsChunk27 ++ ((p.locale) ++ (bsChunk28 ++ ((p.timezone) ++ (bsChunk29 ++
    ((p.locale) ++ (bsChunk30 ++ ((p.timezone) ++ (bsChunk31 ++ ((p.locale) ++
    (bsChunk32)))))))))))))))))))))))))))))))))))))))))))))))))))))))))))))))))


/-- Modelled from the spec: `extractCoresFromScript`, the round-trip
extractor the spec names ("extracting the core count back out of the
generated script yields p.cpuCores"); the repository itself contains no such
function.  It reads the maximal digit run following the first "return " after
the first occurrence of "hardwareConcurrency" in the script text. -/
def extractCoresFromScript (s : List Char) : Option ℕ :=
  (dropThrough anchorHW s).bind fun r1 =>
    (dropThrough anchorReturn r1).bind fun r2 =>
      if r2.takeWhile Char.isDigit = [] then none
      else some (digitsToNat (r2.takeWhile Char.isDigit))

/-- Correctness of the extractor on any text of the shape the generated
script has: an anchor-free region, the property-name anchor, a fixed middle
ending in "return ", the digit run, and a non-digit continuation. -/
theorem extractCores_spec (P Y D Q : List Char)
    (hP : noOccurB anchorHW (P ++ anchorHW.take (anchorHW.length - 1)) = true)
    (hY : noOccurB anchorReturn (Y ++ anchorReturn.take (anchorReturn.length - 1)) = true)
    (hDne : D ≠ []) (hD : ∀ c ∈ D, c.isDigit = true)
    (q : Char) (Q2 : List Char) (hQ : Q = q :: Q2) (hq : q.isDigit = false) :
    extractCoresFromScript (P ++ (anchorHW ++ (Y ++ (anchorReturn ++ (D ++ Q))))) =
      some (digitsToNat D) := by
  unfold extractCoresFromScript
  rw [dropThrough_append anchorHW P (anchorHW ++ (Y ++ (anchorReturn ++ (D ++ Q))))
      (noStart_concrete anchorHW P (Y ++ (anchorReturn ++ (D ++ Q))) hP),
    dropThrough_hit anchorHW (Y ++ (anchorReturn ++ (D ++ Q))) (by decide)]
  simp only [Option.some_bind]
  rw [dropThrough_append anchorReturn Y (anchorReturn ++ (D ++ Q))
      (noStart_concrete anchorReturn Y (D ++ Q) hY),
    dropThrough_hit anchorReturn (D ++ Q) (by decide)]
  simp only [Option.some_bind]
  rw [hQ, takeWhile_digits_append D q Q2 hD hq, if_neg hDne]

/-- Reassociation bringing the five parts before the core-count anchor of the
bootstrap script together. -/
theorem reassoc5 (a b c d e T : List Char) :
    a ++ (b ++ (c ++ (d ++ (e ++ T)))) = (a ++ (b ++ (c ++ (d ++ e)))) ++ T := by
  simp [List.append_assoc]

/-- A list is an infix of itself followed by anything. -/
theorem infix_here (B T : List Char) : B <:+: B ++ T := ⟨[], T, by simp⟩

/-- Prepending text preserves infixes. -/
theorem infix_skip (X : List Char) {B T : List Char} (h : B <:+: T) : B <:+: X ++ T := by
  obtain ⟨s, t, hst⟩ := h
  exact ⟨X ++ s, t, by rw [← hst]; simp [List.append_assoc]⟩

/-- C4: for every profile (any OS, GPU, core count and memory value), the
generated bootstrap script contains the decimal literal of the core count,
the decimal literal of the memory value, and both GPU strings verbatim; and
extracting the core count back out of the script yields the profile's core
count (round trip). -/
theorem bootstrap_script_contains_fields (os : Os) (g : Gpu) (cores mem : ℕ) :
    (natDigits cores <:+: ChaserProfile.bootstrap_script ((((ChaserProfile.new os).set_gpu g).set_memory_gb mem).set_cpu_cores cores).build) ∧
    (natDigits mem <:+: ChaserProfile.bootstrap_script ((((ChaserProfile.new os).set_gpu g).set_memory_gb mem).set_cpu_cores cores).build) ∧
    (Gpu.vendor g <:+: ChaserProfile.bootstrap_script ((((ChaserProfile.new os).set_gpu g).set_memory_gb mem).set_cpu_cores cores).build) ∧
    (Gpu.renderer g <:+: ChaserProfile.bootstrap_script ((((ChaserProfile.new os).set_gpu g).set_memory_gb mem).set_cpu_cores cores).build) ∧
    extractCoresFromScript (ChaserProfile.bootstrap_script ((((ChaserProfile.new os).set_gpu g).set_memory_gb mem).set_cpu_cores cores).build) = some cores := by
  refine ⟨?_, ?_, ?_, ?_, ?_⟩
  · unfold ChaserProfile.bootstrap_script
    exact infix_skip _ (infix_skip _ (infix_skip _ (infix_skip _ (infix_skip _ (infix_skip _ (infix_skip _ (infix_skip _ (infix_here _ _))))))))
  · unfold ChaserProfile.bootstrap_script
    exact infix_skip _ (infix_skip _ (infix_skip _ (infix_skip _ (infix_skip _ (infix_skip _ (infix_skip _ (infix_skip _ (infix_skip _ (infix_skip _ (infix_here _ _))))))))))
  · unfold ChaserProfile.bootstrap_script
    exact infix_skip _ (infix_skip _ (infix_skip _ (infix_skip _ (infix_skip _ (infix_skip _ (infix_skip _ (infix_skip _ (infix_skip _ (infix_skip _ (infix_skip _ (infix_skip _ (infix_skip _ (infix_skip _ (infix_skip _ (infix_skip _ (infix_skip _ (infix_skip _ (infix_skip _ (infix_skip _ (infix_skip _ (infix_skip _ (infix_skip _ (infix_skip _ (infix_skip _ (infix_skip _ (infix_here _ _))))))))))))))))))))))))))
  · unfold ChaserProfile.bootstrap_script
    exact infix_skip _ (infix_skip _ (infix_skip _ (infix_skip _ (infix_skip _ (infix_skip _ (infix_skip _ (infix_skip _ (infix_skip _ (infix_skip _ (infix_skip _ (infix_skip _ (infix_skip _ (infix_skip _ (infix_skip _ (infix_skip _ (infix_skip _ (infix_skip _ (infix_skip _ (infix_skip _ (infix_skip _ (infix_skip _ (infix_skip _ (infix_skip _ (infix_skip _ (infix_skip _ (infix_skip _ (infix_skip _ (infix_here _ _))))))))))))))))))))))))))))
  · have hua : ChaserProfile.user_agent
        ((((ChaserProfile.new os).set_gpu g).set_memory_gb mem).set_cpu_cores cores).build =
        ChaserProfile.user_agent (ChaserProfile.new os).build := rfl
    have hos : ((((ChaserProfile.new os).set_gpu g).set_memory_gb mem).set_cpu_cores
        cores).build.os = (ChaserProfile.new os).build.os := rfl
    unfold ChaserProfile.bootstrap_script
    rw [hua, hos, reassoc5]
    cases os <;>
      exact (extractCores_spec _ _ _ _ (by decide) (by decide) (natDigits_ne_nil _)
        (natDigits_digits _) ';' _ rfl (by decide)).trans
        (congrArg some (digitsToNat_natDigits cores))

/-! ### Claim theorems: stealth executor -/

/-- C1: on every execution path of `evaluate_stealth`, every protocol command
issued is either the `Page.createIsolatedWorld` request for the main frame or
the `Runtime.evaluate` request against the execution-context id returned by
that call, and `Runtime.enable` is never issued. -/
theorem evaluate_stealth_commands (env : StealthEnv) (script : String) :
    (∀ c ∈ (evaluate_stealth env script).2,
        (∃ fid, env.mainframe = Except.ok (some fid) ∧
          c = CdpCommand.createIsolatedWorld fid ("ghost") true) ∨
        (∃ ctx, env.worldResult = Except.ok ctx ∧
          c = CdpCommand.evaluate script ctx true true)) ∧
    CdpCommand.runtimeEnable ∉ (evaluate_stealth env script).2 := by
  obtain ⟨mf, wr, er⟩ := env
  constructor
  · intro c hc
    rcases mf with e | o
    · simp [evaluate_stealth] at hc
    rcases o with _ | fid
    · simp [evaluate_stealth] at hc
    rcases wr with e | ctx
    · simp [evaluate_stealth] at hc
      subst hc
      exact Or.inl ⟨fid, rfl, rfl⟩
    rcases er with e | v
    · simp [evaluate_stealth] at hc
      rcases hc with h | h
      · subst h; exact Or.inl ⟨fid, rfl, rfl⟩
      · subst h; exact Or.inr ⟨ctx, rfl, rfl⟩
    · simp [evaluate_stealth] at hc
      rcases hc with h | h
      · subst h; exact Or.inl ⟨fid, rfl, rfl⟩
      · subst h; exact Or.inr ⟨ctx, rfl, rfl⟩
  · rcases mf with e | o
    · simp [evaluate_stealth]
    rcases o with _ | fid
    · simp [evaluate_stealth]
    rcases wr with e | ctx
    · simp [evaluate_stealth]
    rcases er with e | v <;> simp [evaluate_stealth]

/-- C8: when no main frame is available, `evaluate_stealth` fails immediately
with the explicit error value "No main frame available" and issues no
protocol command at all (in particular the failure is a returned error value,
not a panic). -/
theorem evaluate_stealth_missing_frame (env : StealthEnv) (script : String)
    (h : env.mainframe = Except.ok none) :
    (evaluate_stealth env script).1 = Except.error ("No main frame available") ∧
    (evaluate_stealth env script).2 = [] := by
  obtain ⟨mf, wr, er⟩ := env
  simp only at h
  subst h
  simp [evaluate_stealth]

/-- C8 witness: a concrete environment whose main-frame lookup returns none. -/
theorem evaluate_stealth_missing_frame_witness :
    (evaluate_stealth ⟨Except.ok none, Except.ok 7, Except.ok none⟩ ("1+1")).1 =
        Except.error ("No main frame available") ∧
    (evaluate_stealth ⟨Except.ok none, Except.ok 7, Except.ok none⟩ ("1+1")).2 = [] :=
  evaluate_stealth_missing_frame ⟨Except.ok none, Except.ok 7, Except.ok none⟩ ("1+1") rfl

/-! ### Claim theorems: mouse movement state -/

/-- Helper for C6: if the first `k` dispatches succeed and dispatch `k` fails
(with `k` still inside the path), the loop returns the error and the stored
position is the last successfully dispatched point. -/
theorem moveLoop_fail (disp : ℕ → Bool) :
    ∀ (path : List GPoint) (k i : ℕ) (pos : GPoint),
      (∀ j, j < k → disp (i + j) = true) → disp (i + k) = false → k < path.length →
      (moveLoop disp path i pos).1 = Except.error () ∧
      (moveLoop disp path i pos).2 = (path.take k).getLastD pos := by
  intro path
  induction path with
  | nil => intro k i pos _ _ hk; simp at hk
  | cons p rest ih =>
    intro k i pos hok hfail hk
    cases k with
    | zero =>
      have h0 : disp i = false := by simpa using hfail
      simp [moveLoop, h0]
    | succ k' =>
      have h0 : disp i = true := by simpa using hok 0 (by omega)
      have hok' : ∀ j, j < k' → disp ((i + 1) + j) = true := by
        intro j hj
        have := hok (j + 1) (by omega)
        simpa [show i + (j + 1) = (i + 1) + j by omega] using this
      have hfail' : disp ((i + 1) + k') = false := by
        simpa [show i + (k' + 1) = (i + 1) + k' by omega] using hfail
      have hk' : k' < rest.length := by simpa using hk
      have hrec := ih k' (i + 1) p hok' hfail' hk'
      have hstep : moveLoop disp (p :: rest) i pos = moveLoop disp rest (i + 1) p := by
        simp [moveLoop, h0]
      refine ⟨by rw [hstep]; exact hrec.1, ?_⟩
      rw [hstep, hrec.2, List.take_succ_cons, List.getLastD_cons]

/-- Helper for C6: the last element of a non-trivial take is the (k-1)-th
element of the list. -/
theorem take_getLastD_eq_get? :
    ∀ (l : List GPoint) (k : ℕ) (d : GPoint), 1 ≤ k → k ≤ l.length →
      l.get? (k - 1) = some ((l.take k).getLastD d) := by
  intro l
  induction l with
  | nil => intro k d h1 h2; simp at h2; omega
  | cons p rest ih =>
    intro k d h1 h2
    cases k with
    | zero => omega
    | succ k' =>
      cases k' with
      | zero => simp
      | succ k'' =>
        have ihh := ih (k'' + 1) p (by omega) (by simpa using h2)
        have htk : (p :: rest).take (k'' + 1 + 1) = p :: rest.take (k'' + 1) :=
          List.take_succ_cons
        rw [htk, List.getLastD_cons]
        simpa using ihh

/-- C6: `move_mouse_human` updates the shared mouse position after each
successful dispatch; if the dispatch of point `k` (with `k ≥ 1`) fails, the
loop stops with the error and the stored position is point `k-1`, the last
successfully dispatched point, not the starting position of the movement. -/
theorem move_mouse_partial_failure_state (disp : ℕ → Bool) (path : List GPoint)
    (start : GPoint) (k : ℕ) (hk : k < path.length) (h1 : 1 ≤ k)
    (hfail : disp k = false) (hok : ∀ j, j < k → disp j = true) :
    (move_mouse_human_loop disp path start).1 = Except.error () ∧
    path.get? (k - 1) = some (move_mouse_human_loop disp path start).2 := by
  have hmain := moveLoop_fail disp path k 0 start (by simpa using hok) (by simpa using hfail) hk
  refine ⟨hmain.1, ?_⟩
  rw [show (move_mouse_human_loop disp path start).2 = (moveLoop disp path 0 start).2 from rfl,
    hmain.2]
  exact take_getLastD_eq_get? path k start h1 (by omega)

/-- C6 witness: a three-point path whose second dispatch fails; the stored
position is the first point. -/
theorem move_mouse_partial_failure_state_witness :
    (move_mouse_human_loop (fun j => j == 0) [⟨1, 1⟩, ⟨2, 2⟩, ⟨3, 3⟩] ⟨0, 0⟩).1 =
        Except.error () ∧
    ([⟨1, 1⟩, ⟨2, 2⟩, ⟨3, 3⟩] : List GPoint).get? 0 =
      some (move_mouse_human_loop (fun j => j == 0) [⟨1, 1⟩, ⟨2, 2⟩, ⟨3, 3⟩] ⟨0, 0⟩).2 :=
  move_mouse_partial_failure_state (fun j => j == 0) [⟨1, 1⟩, ⟨2, 2⟩, ⟨3, 3⟩] ⟨0, 0⟩ 1
    (by decide) (by decide) (by decide) (by decide)

/-! ### Claim theorems: Bezier paths -/

/-- C3: for 25 requested steps `BezierPath::generate` returns exactly 26
points, whose first point is the literal start and whose last point is the
(already jittered) end argument, both exactly; hence with the target jitter
draws of `move_mouse_human` (each in the half-open range -2..2) the last
dispatched point is within 2 px of the caller's target in each coordinate. -/
theorem bezier_path_endpoints (start : GPoint) (x y jx jy o1x o1y o2x o2y dist : ℚ)
    (ov : Bool) (hjx1 : -2 ≤ jx) (hjx2 : jx < 2) (hjy1 : -2 ≤ jy) (hjy2 : jy < 2) :
    (BezierPath.generate start ⟨x + jx, y + jy⟩ 25 o1x o1y o2x o2y dist ov).length = 26 ∧
    (BezierPath.generate start ⟨x + jx, y + jy⟩ 25 o1x o1y o2x o2y dist ov).head? =
      some start ∧
    (BezierPath.generate start ⟨x + jx, y + jy⟩ 25 o1x o1y o2x o2y dist ov).getLast? =
      some ⟨x + jx, y + jy⟩ ∧
    |(x + jx) - x| ≤ 2 ∧ |(y + jy) - y| ≤ 2 := by
  refine ⟨?_, ?_, ?_, ?_, ?_⟩
  · simp [BezierPath.generate]
  · rw [BezierPath.generate]
    rw [List.head?_map, show (List.range 26).head? = some 0 from rfl]
    refine congrArg some ?_
    apply GPoint.ext <;> norm_num
  · rw [BezierPath.generate]
    rw [List.getLast?_map, show (List.range 26).getLast? = some 25 from rfl]
    refine congrArg some ?_
    apply GPoint.ext <;> norm_num
  · rw [abs_le]
    constructor <;> linarith
  · rw [abs_le]
    constructor <;> linarith

/-- C3 witness: concrete jitters of 1 and -1 on the target (500, 400). -/
theorem bezier_path_endpoints_witness :
    (BezierPath.generate ⟨0, 0⟩ ⟨500 + 1, 400 + (-1)⟩ 25 3 4 5 6 7 true).length = 26 ∧
    (BezierPath.generate ⟨0, 0⟩ ⟨500 + 1, 400 + (-1)⟩ 25 3 4 5 6 7 true).head? =
      some ⟨0, 0⟩ ∧
    (BezierPath.generate ⟨0, 0⟩ ⟨500 + 1, 400 + (-1)⟩ 25 3 4 5 6 7 true).getLast? =
      some ⟨500 + 1, 400 + (-1)⟩ ∧
    |(500 + 1 : ℚ) - 500| ≤ 2 ∧ |(400 + (-1) : ℚ) - 400| ≤ 2 :=
  bezier_path_endpoints ⟨0, 0⟩ 500 400 1 (-1) 3 4 5 6 7 true (by norm_num) (by norm_num)
    (by norm_num) (by norm_num)

/-! ### Claim theorems: typing -/

/-- C9: with `min_delay_ms ≥ max_delay_ms` and a non-empty text, the call
panics (the `gen_range(min..max)` draw on the empty range) after the first
character's key-down/key-up pair has already been dispatched, instead of
returning a failure value. -/
theorem type_text_empty_range_panics (disp : ℕ → Bool) (c : Char) (rest : List Char)
    (minD maxD : ℕ) (hd : ∀ i, disp i = true) (h : maxD ≤ minD) :
    type_text_with_delay disp (c :: rest) minD maxD =
      (TypeResult.panicked, [CdpCommand.keyDown (some c), CdpCommand.keyUp]) := by
  simp [type_text_with_delay, typeLoop, hd, Nat.not_lt.mpr h]

/-- C9 witness: typing "a" with the degenerate delay range 5..5. -/
theorem type_text_empty_range_panics_witness :
    type_text_with_delay (fun _ => true) [Char.ofNat 97] 5 5 =
      (TypeResult.panicked, [CdpCommand.keyDown (some (Char.ofNat 97)), CdpCommand.keyUp]) :=
  type_text_empty_range_panics (fun _ => true) (Char.ofNat 97) [] 5 5 (fun _ => rfl)
    (Nat.le_refl 5)

/-! ### Claim theorems: scrolling -/

/-- C5: for every i32 scroll delta, the computed step count lies in [3, 15].
`absWrap` models release-mode `i32::abs`, which wraps on `i32::MIN`; even on
that input the clamped count is 3. -/
theorem scroll_steps_in_range (dy : ℤ) (hlo : -(2 ^ 31) ≤ dy) (hhi : dy < 2 ^ 31) :
    3 ≤ scrollSteps dy ∧ scrollSteps dy ≤ 15 := by
  clear hlo hhi
  unfold scrollSteps minI maxI
  split_ifs <;> omega

/-- C5 witness: the bounds at a concrete delta. -/
theorem scroll_steps_in_range_witness :
    3 ≤ scrollSteps 424242 ∧ scrollSteps 424242 ≤ 15 :=
  scroll_steps_in_range 424242 (by decide) (by decide)

/-- C7: the OS-seeded builder defaults: Windows preset has 8 cores; the Apple
Silicon preset has 14 cores and a 1728-pixel-wide screen; the full geometry
seed is Windows 1920x1080x1.0, MacOSIntel 1440x900x2.0, MacOSArm
1728x1117x2.0, Linux 1920x1080x1.0, with locale en-US, timezone
America/New_York and browser version 131. -/
theorem builder_default_seeds :
    (ChaserProfile.windows.build).cpu_cores = 8 ∧
    (ChaserProfile.macos_arm.build).cpu_cores = 14 ∧
    (ChaserProfile.macos_arm.build).screen_width = 1728 ∧
    ((ChaserProfile.new .Windows).build).screen_width = 1920 ∧
    ((ChaserProfile.new .Windows).build).screen_height = 1080 ∧
    ((ChaserProfile.new .Windows).build).dpr = 1 ∧
    ((ChaserProfile.new .MacOSIntel).build).screen_width = 1440 ∧
    ((ChaserProfile.new .MacOSIntel).build).screen_height = 900 ∧
    ((ChaserProfile.new .MacOSIntel).build).dpr = 2 ∧
    ((ChaserProfile.new .MacOSArm).build).screen_width = 1728 ∧
    ((ChaserProfile.new .MacOSArm).build).screen_height = 1117 ∧
    ((ChaserProfile.new .MacOSArm).build).dpr = 2 ∧
    ((ChaserProfile.new .Linux).build).screen_width = 1920 ∧
    ((ChaserProfile.new .Linux).build).screen_height = 1080 ∧
    ((ChaserProfile.new .Linux).build).dpr = 1 ∧
    ((ChaserProfile.new .Linux).build).cpu_cores = 8 ∧
    ((ChaserProfile.new .MacOSIntel).build).cpu_cores = 8 ∧
    (∀ os : Os, ((ChaserProfile.new os).build).locale = ("en-US").data ∧
      ((ChaserProfile.new os).build).timezone = ("America/New_York").data ∧
      ((ChaserProfile.new os).build).chrome_version = 131) := by
  refine ⟨rfl, rfl, rfl, rfl, rfl, rfl, rfl, rfl, rfl, rfl, rfl, rfl, rfl, rfl, rfl, rfl,
    rfl, ?_⟩
  intro os
  cases os <;> exact ⟨rfl, rfl, rfl⟩

/-- C10: `scroll_human(0)` still runs 3 iterations with a zero base step, and
any nonzero jitter draw in -10..10 on the first iteration makes it dispatch a
wheel event with that nonzero delta, so a zero-pixel scroll request can emit
real scroll input. -/
theorem scroll_zero_not_noop (j : ℤ) (hlo : -10 ≤ j) (hhi : j ≤ 9) (hne : j ≠ 0) :
    scrollSteps 0 = 3 ∧
    Int.tdiv 0 3 = 0 ∧
    ((scroll_human 0 (fun i => if i = 0 then j else 0)).1).head? = some j := by
  refine ⟨by decide, by decide, ?_⟩
  show (scrollLoop (scrollSteps 0) _ (List.range (scrollSteps 0)) 0).1.head? = some j
  rw [show scrollSteps 0 = 3 from by decide, show List.range 3 = [0, 1, 2] from rfl]
  have h0 : f64AsI32 0 = 0 := by norm_num [f64AsI32, truncRat, maxI, minI]
  have hcl : clampI j (-200) 200 = j := by
    unfold clampI maxI minI
    split_ifs <;> omega
  simp only [scrollLoop]
  simp [Int.zero_tdiv, h0, hcl, hne]

/-- The all-zero jitter draw used by the C2 counterexample. -/
def zeroJit : ℕ → ℤ := fun _ => 0

/-- C2 counterexample: for the requested delta 10000 with all jitters drawn
as zero, every one of the 15 steps is clamped to 200 px, so the dispatched
sum is 3000 and misses the requested total by 7000, far beyond the claimed
cumulative jitter bound of 150. -/
theorem scroll_sum_bound_counterexample :
    ¬ (|sumZ (scroll_human 10000 zeroJit).1 - 10000| ≤
        10 * ((scrollSteps 10000 : ℕ) : ℤ)) := by
  intro hcontra
  have hst : scrollSteps 10000 = 15 := by decide
  have hrem : (scrollLoop 15 zeroJit [0, 1, 2, 3, 4, 5, 6, 7, 8, 9, 10, 11, 12, 13, 14] 10000).2 = 7000 := by
    have hs0 : clampI (f64AsI32 ((Int.tdiv 10000 ((15 - 0 : ℕ) : ℤ) : ℚ) *
        easeFor 0 15) + zeroJit 0) (-200) 200 = 200 := by
      rw [show ((15 - 0 : ℕ) : ℤ) = 15 from by norm_num,
        show Int.tdiv 10000 15 = 666 from by decide]
      norm_num [zeroJit, easeFor, f64AsI32, truncRat, clampI, maxI, minI]
    have e0 := scrollLoop_snd_step 15 zeroJit 0 [1, 2, 3, 4, 5, 6, 7, 8, 9, 10, 11, 12, 13, 14] 10000 200 hs0 (by norm_num)
    rw [show (10000 : ℤ) - 200 = 9800 from by norm_num] at e0
    have hs1 : clampI (f64AsI32 ((Int.tdiv 9800 ((15 - 1 : ℕ) : ℤ) : ℚ) *
        easeFor 1 15) + zeroJit 1) (-200) 200 = 200 := by
      rw [show ((15 - 1 : ℕ) : ℤ) = 14 from by norm_num,
        show Int.tdiv 9800 14 = 700 from by decide]
      norm_num [zeroJit, easeFor, f64AsI32, truncRat, clampI, maxI, minI]
    have e1 := scrollLoop_snd_step 15 zeroJit 1 [2, 3, 4, 5, 6, 7, 8, 9, 10, 11, 12, 13, 14] 9800 200 hs1 (by norm_num)
    rw [show (9800 : ℤ) - 200 = 9600 from by norm_num] at e1
    have hs2 : clampI (f64AsI32 ((Int.tdiv 9600 ((15 - 2 : ℕ) : ℤ) : ℚ) *
        easeFor 2 15) + zeroJit 2) (-200) 200 = 200 := by
      rw [show ((15 - 2 : ℕ) : ℤ) = 13 from by norm_num,
        show Int.tdiv 9600 13 = 738 from by decide]
      norm_num [zeroJit, easeFor, f64AsI32, truncRat, clampI, maxI, minI]
    have e2 := scrollLoop_snd_step 15 zeroJit 2 [3, 4, 5, 6, 7, 8, 9, 10, 11, 12, 13, 14] 9600 200 hs2 (by norm_num)
    rw [show (9600 : ℤ) - 200 = 9400 from by norm_num] at e2
    have hs3 : clampI (f64AsI32 ((Int.tdiv 9400 ((15 - 3 : ℕ) : ℤ) : ℚ) *
        easeFor 3 15) + zeroJit 3) (-200) 200 = 200 := by
      rw [show ((15 - 3 : ℕ) : ℤ) = 12 from by norm_num,
        show Int.tdiv 9400 12 = 783 from by decide]
      norm_num [zeroJit, easeFor, f64AsI32, truncRat, clampI, maxI, minI]
    have e3 := scrollLoop_snd_step 15 zeroJit 3 [4, 5, 6, 7, 8, 9, 10, 11, 12, 13, 14] 9400 200 hs3 (by norm_num)
    rw [show (9400 : ℤ) - 200 = 9200 from by norm_num] at e3
    have hs4 : clampI (f64AsI32 ((Int.tdiv 9200 ((15 - 4 : ℕ) : ℤ) : ℚ) *
        easeFor 4 15) + zeroJit 4) (-200) 200 = 200 := by
      rw [show ((15 - 4 : ℕ) : ℤ) = 11 from by norm_num,
        show Int.tdiv 9200 11 = 836 from by decide]
      norm_num [zeroJit, easeFor, f64AsI32, truncRat, clampI, maxI, minI]
    have e4 := scrollLoop_snd_step 15 zeroJit 4 [5, 6, 7, 8, 9, 10, 11, 12, 13, 14] 9200 200 hs4 (by norm_num)
    rw [show (9200 : ℤ) - 200 = 9000 from by norm_num] at e4
    have hs5 : clampI (f64AsI32 ((Int.tdiv 9000 ((15 - 5 : ℕ) : ℤ) : ℚ) *
        easeFor 5 15) + zeroJit 5) (-200) 200 = 200 := by
      rw [show ((15 - 5 : ℕ) : ℤ) = 10 from by norm_num,
        show Int.tdiv 9000 10 = 900 from by decide]
      norm_num [zeroJit, easeFor, f64AsI32, truncRat, clampI, maxI, minI]
    have e5 := scrollLoop_snd_step 15 zeroJit 5 [6, 7, 8, 9, 10, 11, 12, 13, 14] 9000 200 hs5 (by norm_num)
    rw [show (9000 : ℤ) - 200 = 8800 from by norm_num] at e5
    have hs6 : clampI (f64AsI32 ((Int.tdiv 8800 ((15 - 6 : ℕ) : ℤ) : ℚ) *
        easeFor 6 15) + zeroJit 6) (-200) 200 = 200 := by
      rw [show ((15 - 6 : ℕ) : ℤ) = 9 from by norm_num,
        show Int.tdiv 8800 9 = 977 from by decide]
      norm_num [zeroJit, easeFor, f64AsI32, truncRat, clampI, maxI, minI]
    have e6 := scrollLoop_snd_step 15 zeroJit 6 [7, 8, 9, 10, 11, 12, 13, 14] 8800 200 hs6 (by norm_num)
    rw [show (8800 : ℤ) - 200 = 8600 from by norm_num] at e6
    have hs7 : clampI (f64AsI32 ((Int.tdiv 8600 ((15 - 7 : ℕ) : ℤ) : ℚ) *
        easeFor 7 15) + zeroJit 7) (-200) 200 = 200 := by
      rw [show ((15 - 7 : ℕ) : ℤ) = 8 from by norm_num,
        show Int.tdiv 8600 8 = 1075 from by decide]
      norm_num [zeroJit, easeFor, f64AsI32, truncRat, clampI, maxI, minI]
    have e7 := scrollLoop_snd_step 15 zeroJit 7 [8, 9, 10, 11, 12, 13, 14] 8600 200 hs7 (by norm_num)
    rw [show (8600 : ℤ) - 200 = 8400 from by norm_num] at e7
    have hs8 : clampI (f64AsI32 ((Int.tdiv 8400 ((15 - 8 : ℕ) : ℤ) : ℚ) *
        easeFor 8 15) + zeroJit 8) (-200) 200 = 200 := by
      rw [show ((15 - 8 : ℕ) : ℤ) = 7 from by norm_num,
        show Int.tdiv 8400 7 = 1200 from by decide]
      norm_num [zeroJit, easeFor, f64AsI32, truncRat, clampI, maxI, minI]
    have e8 := scrollLoop_snd_step 15 zeroJit 8 [9, 10, 11, 12, 13, 14] 8400 200 hs8 (by norm_num)
    rw [show (8400 : ℤ) - 200 = 8200 from by norm_num] at e8
    have hs9 : clampI (f64AsI32 ((Int.tdiv 8200 ((15 - 9 : ℕ) : ℤ) : ℚ) *
        easeFor 9 15) + zeroJit 9) (-200) 200 = 200 := by
      rw [show ((15 - 9 : ℕ) : ℤ) = 6 from by norm_num,
        show Int.tdiv 8200 6 = 1366 from by decide]
      norm_num [zeroJit, easeFor, f64AsI32, truncRat, clampI, maxI, minI]
    have e9 := scrollLoop_snd_step 15 zeroJit 9 [10, 11, 12, 13, 14] 8200 200 hs9 (by norm_num)
    rw [show (8200 : ℤ) - 200 = 8000 from by norm_num] at e9
    have hs10 : clampI (f64AsI32 ((Int.tdiv 8000 ((15 - 10 : ℕ) : ℤ) : ℚ) *
        easeFor 10 15) + zeroJit 10) (-200) 200 = 200 := by
      rw [show ((15 - 10 : ℕ) : ℤ) = 5 from by norm_num,
        show Int.tdiv 8000 5 = 1600 from by decide]
      norm_num [zeroJit, easeFor, f64AsI32, truncRat, clampI, maxI, minI]
    have e10 := scrollLoop_snd_step 15 zeroJit 10 [11, 12, 13, 14] 8000 200 hs10 (by norm_num)
    rw [show (8000 : ℤ) - 200 = 7800 from by norm_num] at e10
    have hs11 : clampI (f64AsI32 ((Int.tdiv 7800 ((15 - 11 : ℕ) : ℤ) : ℚ) *
        easeFor 11 15) + zeroJit 11) (-200) 200 = 200 := by
      rw [show ((15 - 11 : ℕ) : ℤ) = 4 from by norm_num,
        show Int.tdiv 7800 4 = 1950 from by decide]
      norm_num [zeroJit, easeFor, f64AsI32, truncRat, clampI, maxI, minI]
    have e11 := scrollLoop_snd_step 15 zeroJit 11 [12, 13, 14] 7800 200 hs11 (by norm_num)
    rw [show (7800 : ℤ) - 200 = 7600 from by norm_num] at e11
    have hs12 : clampI (f64AsI32 ((Int.tdiv 7600 ((15 - 12 : ℕ) : ℤ) : ℚ) *
        easeFor 12 15) + zeroJit 12) (-200) 200 = 200 := by
      rw [show ((15 - 12 : ℕ) : ℤ) = 3 from by norm_num,
        show Int.tdiv 7600 3 = 2533 from by decide]
      norm_num [zeroJit, easeFor, f64AsI32, truncRat, clampI, maxI, minI]
    have e12 := scrollLoop_snd_step 15 zeroJit 12 [13, 14] 7600 200 hs12 (by norm_num)
    rw [show (7600 : ℤ) - 200 = 7400 from by norm_num] at e12
    have hs13 : clampI (f64AsI32 ((Int.tdiv 7400 ((15 - 13 : ℕ) : ℤ) : ℚ) *
        easeFor 13 15) + zeroJit 13) (-200) 200 = 200 := by
      rw [show ((15 - 13 : ℕ) : ℤ) = 2 from by norm_num,
        show Int.tdiv 7400 2 = 3700 from by decide]
      norm_num [zeroJit, easeFor, f64AsI32, truncRat, clampI, maxI, minI]
    have e13 := scrollLoop_snd_step 15 zeroJit 13 [14] 7400 200 hs13 (by norm_num)
    rw [show (7400 : ℤ) - 200 = 7200 from by norm_num] at e13
    have hs14 : clampI (f64AsI32 ((Int.tdiv 7200 ((15 - 14 : ℕ) : ℤ) : ℚ) *
        easeFor 14 15) + zeroJit 14) (-200) 200 = 200 := by
      rw [show ((15 - 14 : ℕ) : ℤ) = 1 from by norm_num,
        show Int.tdiv 7200 1 = 7200 from by decide]
      norm_num [zeroJit, easeFor, f64AsI32, truncRat, clampI, maxI, minI]
    have e14 := scrollLoop_snd_step 15 zeroJit 14 [] 7200 200 hs14 (by norm_num)
    rw [show (7200 : ℤ) - 200 = 7000 from by norm_num] at e14
    rw [e0, e1, e2, e3, e4, e5, e6, e7, e8, e9, e10, e11, e12, e13, e14, scrollLoop_nil]
  have hsum := scrollLoop_sum 15 zeroJit [0, 1, 2, 3, 4, 5, 6, 7, 8, 9, 10, 11, 12, 13, 14] 10000
  rw [scroll_human, hst, show List.range 15 = [0, 1, 2, 3, 4, 5, 6, 7, 8, 9, 10, 11, 12, 13, 14] from rfl,
    hsum, hrem] at hcontra
  rw [abs_le] at hcontra
  norm_num at hcontra


/-- Helper for C2: the last of the three iterations of a minimum-step-count
scroll leaves at most the last jitter as the residual. -/
theorem scroll3_last (jit : ℕ → ℤ) (hja : -10 ≤ jit 2) (hjb : jit 2 ≤ 9) (r : ℤ)
    (hr1 : -131 ≤ r) (hr2 : r ≤ 131) :
    |(scrollLoop 3 jit [2] r).2| ≤ 10 := by
  have e2 : easeFor 2 3 = 1 := by norm_num [easeFor]
  have hd : ((3 - 2 : ℕ) : ℤ) = 1 := by norm_num
  have hf : f64AsI32 ((Int.tdiv r 1 : ℚ) * easeFor 2 3) = r := by
    rw [e2, mul_one, Int.tdiv_one,
      f64AsI32_eq _ (by rw [truncRat_intCast]; omega) (by rw [truncRat_intCast]; omega),
      truncRat_intCast]
  have hstep : clampI (f64AsI32 ((Int.tdiv r 1 : ℚ) * easeFor 2 3) + jit 2) (-200) 200 =
      r + jit 2 := by
    rw [hf]
    exact clampI_eq _ (by omega) (by omega)
  rw [scrollLoop_cons, hd, hstep]
  by_cases hz : r + jit 2 = 0
  · rw [if_pos hz]
    show |r| ≤ 10
    rw [abs_le]
    omega
  · rw [if_neg hz]
    show |r - (r + jit 2)| ≤ 10
    rw [abs_le]
    constructor <;> omega

/-- Helper for C2: the middle and last iterations of a minimum-step-count
scroll leave at most the last jitter as the residual, for any remaining value
the first iteration can produce. -/
theorem scroll3_mid (jit : ℕ → ℤ) (hj : ∀ i, -10 ≤ jit i ∧ jit i ≤ 9) (r : ℤ)
    (hra : -242 ≤ r) (hrb : r ≤ 242) :
    |(scrollLoop 3 jit [1, 2] r).2| ≤ 10 := by
  have e1 : easeFor 1 3 = 1 := by norm_num [easeFor]
  have hd : ((3 - 1 : ℕ) : ℤ) = 2 := by norm_num
  have hb : -121 ≤ Int.tdiv r 2 ∧ Int.tdiv r 2 ≤ 121 := by
    rw [tdiv_eq_ediv_cases r 2 (by norm_num)]
    split_ifs <;> omega
  have hj1 := hj 1
  have hf : f64AsI32 ((Int.tdiv r 2 : ℚ) * easeFor 1 3) = Int.tdiv r 2 := by
    rw [e1, mul_one,
      f64AsI32_eq _ (by rw [truncRat_intCast]; omega) (by rw [truncRat_intCast]; omega),
      truncRat_intCast]
  have hstep : clampI (f64AsI32 ((Int.tdiv r 2 : ℚ) * easeFor 1 3) + jit 1) (-200) 200 =
      Int.tdiv r 2 + jit 1 := by
    rw [hf]
    exact clampI_eq _ (by omega) (by omega)
  rw [scrollLoop_cons, hd, hstep]
  by_cases hz : Int.tdiv r 2 + jit 1 = 0
  · rw [if_pos hz]
    have hsmall : -21 ≤ r ∧ r ≤ 21 := by
      rw [tdiv_eq_ediv_cases r 2 (by norm_num)] at hz
      split_ifs at hz <;> omega
    exact scroll3_last jit (hj 2).1 (hj 2).2 r (by omega) (by omega)
  · rw [if_neg hz]
    have hr2 : -131 ≤ r - (Int.tdiv r 2 + jit 1) ∧ r - (Int.tdiv r 2 + jit 1) ≤ 131 := by
      rw [tdiv_eq_ediv_cases r 2 (by norm_num)] at hz ⊢
      split_ifs <;> split_ifs at hz <;> omega
    exact scroll3_last jit (hj 2).1 (hj 2).2 _ hr2.1 hr2.2

/-- C2 (amended): for requested deltas in the minimum-step-count regime
(|deltaY| <= 199, so the step count is 3) and every draw of the jitters, the
sum of the dispatched wheel deltas is within the cumulative jitter bound of
10 px per step times the step count of the requested delta (in fact within
10 px).  For large deltas the claim fails because of the per-step clamp to
±200 px; see the counterexample. -/
theorem scroll_sum_bound_small_delta (dy : ℤ) (h1 : -199 ≤ dy) (h2 : dy ≤ 199)
    (jit : ℕ → ℤ) (hj : ∀ i, -10 ≤ jit i ∧ jit i ≤ 9) :
    |sumZ (scroll_human dy jit).1 - dy| ≤ 10 * ((scrollSteps dy : ℕ) : ℤ) := by
  have hst : scrollSteps dy = 3 := by
    unfold scrollSteps absWrap minI maxI
    rw [tdiv_eq_ediv_cases _ 50 (by norm_num)]
    split_ifs <;> omega
  have hj0 := hj 0
  have e0 : easeFor 0 3 = 1 / 2 := by norm_num [easeFor]
  have hd0 : ((3 - 0 : ℕ) : ℤ) = 3 := by norm_num
  have hb0 : -66 ≤ Int.tdiv dy 3 ∧ Int.tdiv dy 3 ≤ 66 := by
    rw [tdiv_eq_ediv_cases dy 3 (by norm_num)]
    split_ifs <;> omega
  have hc0 : -33 ≤ Int.tdiv (Int.tdiv dy 3) 2 ∧ Int.tdiv (Int.tdiv dy 3) 2 ≤ 33 := by
    rw [tdiv_eq_ediv_cases (Int.tdiv dy 3) 2 (by norm_num)]
    split_ifs <;> omega
  have hf0 : f64AsI32 ((Int.tdiv dy 3 : ℚ) * easeFor 0 3) = Int.tdiv (Int.tdiv dy 3) 2 := by
    rw [e0, show ((Int.tdiv dy 3 : ℚ) * (1 / 2)) = (Int.tdiv dy 3 : ℚ) / 2 from by ring,
      f64AsI32_eq _ (by rw [truncRat_intCast_div_two]; omega)
        (by rw [truncRat_intCast_div_two]; omega),
      truncRat_intCast_div_two]
  have hstep0 : clampI (f64AsI32 ((Int.tdiv dy 3 : ℚ) * easeFor 0 3) + jit 0) (-200) 200 =
      Int.tdiv (Int.tdiv dy 3) 2 + jit 0 := by
    rw [hf0]
    exact clampI_eq _ (by omega) (by omega)
  have hmain : |(scrollLoop 3 jit [0, 1, 2] dy).2| ≤ 10 := by
    rw [scrollLoop_cons, hd0, hstep0]
    by_cases hz : Int.tdiv (Int.tdiv dy 3) 2 + jit 0 = 0
    · rw [if_pos hz]
      exact scroll3_mid jit hj dy (by omega) (by omega)
    · rw [if_neg hz]
      exact scroll3_mid jit hj _ (by omega) (by omega)
  rw [scroll_human, hst, show List.range 3 = [0, 1, 2] from rfl,
    scrollLoop_sum 3 jit [0, 1, 2] dy,
    show dy - (scrollLoop 3 jit [0, 1, 2] dy).2 - dy = -((scrollLoop 3 jit [0, 1, 2] dy).2)
      from by ring,
    abs_neg]
  calc |(scrollLoop 3 jit [0, 1, 2] dy).2| ≤ 10 := hmain
    _ ≤ 10 * ((3 : ℕ) : ℤ) := by norm_num

/-- C2 witness: a 100-pixel scroll with all jitters drawn as zero. -/
theorem scroll_sum_bound_small_delta_witness :
    |sumZ (scroll_human 100 (fun _ => 0)).1 - 100| ≤ 10 * ((scrollSteps 100 : ℕ) : ℤ) :=
  scroll_sum_bound_small_delta 100 (by norm_num) (by norm_num) (fun _ => 0)
    (fun _ => by norm_num)

/-- C10 witness: jitter 5 on the first step of a zero scroll. -/
theorem scroll_zero_not_noop_witness :
    scrollSteps 0 = 3 ∧
    Int.tdiv 0 3 = 0 ∧
    ((scroll_human 0 (fun i => if i = 0 then 5 else 0)).1).head? = some 5 :=
  scroll_zero_not_noop 5 (by decide) (by decide) (by decide)

end Ghostoxide
